import Mathlib

/-
  Verification of the DivergenceProject repository analysis pipeline.

  Shallow embedding of the core pipeline from the repository sources:
    - backend/translation/filtering.py   (parser, analyzer, filtered/translated builders)
    - backend/translation/translation.py (DeveloperProfile1 translator)
    - backend/translation/modelling.py   (DivergencePredictiveModel)

  Numeric values use exact rationals (Python floats are modelled as exact
  arithmetic; Python round() is modelled as round-half-to-even on rationals).
  Python operations that can raise (statistics.mean/stdev, max/min on empty
  sequences) are modelled as Option-returning functions, and code paths
  mirror the source guards, so that "never raises" claims are statable.
-/

set_option maxRecDepth 10000

namespace Divergence

/-! ## Python-style numeric helpers -/

/-- Floor of a rational, computed directly by floor division. -/
def ratFloor (x : ℚ) : ℤ := x.num.fdiv x.den

/-- Round-half-to-even of a rational to an integer, modelling Python round(). -/
def rhe (x : ℚ) : ℤ :=
  if x - ratFloor x < 1/2 then ratFloor x
  else if 1/2 < x - ratFloor x then ratFloor x + 1
  else if ratFloor x % 2 = 0 then ratFloor x else ratFloor x + 1

/-- Python round(x, p): round-half-to-even at p decimal places. -/
def pyround (p : ℕ) (x : ℚ) : ℚ := (rhe (x * 10 ^ p) : ℚ) / 10 ^ p

/-- statistics.mean: raises on an empty list. -/
def pymean (l : List ℚ) : Option ℚ :=
  if l.isEmpty then none else some (l.sum / l.length)

/-- max() over a list: raises on an empty list. -/
def pymax : List ℚ → Option ℚ
  | [] => none
  | x :: xs => some (xs.foldl max x)

/-- min() over a list: raises on an empty list. -/
def pymin : List ℚ → Option ℚ
  | [] => none
  | x :: xs => some (xs.foldl min x)

/-- Sample variance (denominator n-1), the square of statistics.stdev. -/
def sampleVariance (l : List ℚ) : ℚ :=
  let μ := l.sum / l.length
  ((l.map (fun x => (x - μ) ^ 2)).sum) / ((l.length : ℚ) - 1)

/-- Integer-square-root based stand-in for the real square root on ℚ
(the exact value of statistics.stdev is irrational in general; no theorem
in this development depends on the value computed here, only on the guard
structure around the call). -/
def ratSqrt (x : ℚ) : ℚ :=
  (Nat.sqrt (x.num.toNat * x.den) : ℚ) / (x.den : ℚ)

/-- statistics.stdev: raises when fewer than two data points. -/
def pystdev (l : List ℚ) : Option ℚ :=
  if l.length < 2 then none else some (ratSqrt (sampleVariance l))

/-! ## Python dict / sorted helpers -/

/-- dict.get(k, d) on an association list (first match wins, as in a dict). -/
def lookupD {α : Type} : List (String × α) → String → α → α
  | [], _, d => d
  | (k, v) :: rest, key, d => if k = key then v else lookupD rest key d

/-- defaultdict(int)-style accumulation: add v to key k, keeping first-insertion
key order (new keys are appended at the end, as in a Python dict). -/
def addCount : List (String × ℕ) → String → ℕ → List (String × ℕ)
  | [], k, v => [(k, v)]
  | (k', v') :: rest, k, v =>
      if k' = k then (k', v' + v) :: rest else (k', v') :: addCount rest k v

/-- One step of a stable descending insertion by second component:
walk past strictly larger counts, insert before the first count ≤ ours,
so earlier-encountered entries stay first among equal counts. -/
def insertDesc {α β : Type} [LinearOrder β] (p : α × β) :
    List (α × β) → List (α × β)
  | [] => [p]
  | q :: qs => if p.2 < q.2 then q :: insertDesc p qs else p :: q :: qs

/-- Python sorted(items, key=lambda x: x[1], reverse=True): a stable sort,
descending by the second component. -/
def pySortDesc {α β : Type} [LinearOrder β] (l : List (α × β)) : List (α × β) :=
  l.foldr insertDesc []

/-! ## Repository analyzer (filtering.py): character-level scanners

The analyzer's regular expressions are embedded as direct scanners over
`List Char`.  Patterns of the shape `\.EXT\b` (case-insensitive) become
prefix matches followed by a non-word character; the two library extractors
(`(?:import|from)\s+([a-zA-Z0-9_.-]+)` and
`"([a-zA-Z0-9_-]+)":\s*"\d+\.\d+\.\d+"`) become left-to-right non-overlapping
scanners with the same greedy semantics; framework signature searches become
boolean containment scanners. -/

/-- Python regex word character (ASCII). -/
def isWordChar (c : Char) : Bool := c.isAlphanum || c == '_'

/-- Python regex whitespace class. -/
def pyIsSpace (c : Char) : Bool :=
  c == ' ' || c == '\t' || c == '\n' || c == '\r' || c == '\x0b' || c == '\x0c'

/-- Character class [a-zA-Z0-9_.-] of the import pattern. -/
def importClass (c : Char) : Bool :=
  c.isAlphanum || c == '_' || c == '.' || c == '-'

/-- Character class [a-zA-Z0-9_-] of the package-name pattern. -/
def pkgClass (c : Char) : Bool := c.isAlphanum || c == '_' || c == '-'

/-- Does the literal pattern match at the head, with a word boundary after it
(pattern text ends in a word character, so the boundary requires the next
character to be a non-word character or the end)? -/
def matchLitBoundaryAfter (pat : List Char) (cs : List Char) : Bool :=
  if cs.take pat.length = pat then
    match cs.drop pat.length with
    | [] => true
    | c :: _ => !isWordChar c
  else false

/-- Count the positions where `\.EXT`-style pattern `pat` matches with a
trailing word boundary (matches of such patterns cannot overlap, so the
position count equals the re.findall count). -/
def countExt (pat : List Char) : List Char → ℕ
  | [] => 0
  | cs@(_ :: rest) =>
      (if matchLitBoundaryAfter pat cs then 1 else 0) + countExt pat rest

/-- Does `pat` occur at the head as a plain substring? -/
def matchLitAt (pat : List Char) (cs : List Char) : Bool :=
  cs.take pat.length = pat

/-- re.search of a plain substring. -/
def containsSub (pat : List Char) : List Char → Bool
  | [] => pat.isEmpty
  | cs@(_ :: rest) => matchLitAt pat cs || containsSub pat rest

/-- re.search of `\bword\b`: `prev` is the character before the current
position (none at the start of the text). -/
def containsWordAux (w : List Char) (prev : Option Char) : List Char → Bool
  | [] => false
  | cs@(c :: rest) =>
      ((match prev with | none => true | some p => !isWordChar p)
        && matchLitBoundaryAfter w cs)
      || containsWordAux w (some c) rest

def containsWord (w : List Char) (cs : List Char) : Bool :=
  containsWordAux w none cs

/-- Match of `\bclaude.code\b` at the head (the `.` matches any character
except a newline); boundary before is checked by the caller. -/
def matchClaudeDotCodeAt (cs : List Char) : Bool :=
  if cs.take 6 = "claude".data then
    match cs.drop 6 with
    | [] => false
    | c :: rest => (c != '\n') && matchLitBoundaryAfter "code".data rest
  else false

/-- re.search of `\bclaude.code\b`. -/
def containsClaudeDotCodeAux (prev : Option Char) : List Char → Bool
  | [] => false
  | cs@(c :: rest) =>
      ((match prev with | none => true | some p => !isWordChar p)
        && matchClaudeDotCodeAt cs)
      || containsClaudeDotCodeAux (some c) rest

def containsClaudeDotCode (cs : List Char) : Bool :=
  containsClaudeDotCodeAux none cs

/-- Try to match `(?:import|from)\s+([a-zA-Z0-9_.-]+)` at the head; on success
return the captured name and the rest of the text after the match. -/
def matchImportAt (cs : List Char) : Option (List Char × List Char) :=
  let tail (rest : List Char) : Option (List Char × List Char) :=
    let ws := rest.takeWhile pyIsSpace
    if ws.isEmpty then none
    else
      let r1 := rest.dropWhile pyIsSpace
      let name := r1.takeWhile importClass
      if name.isEmpty then none
      else some (name, r1.dropWhile importClass)
  if cs.take 6 = "import".data then tail (cs.drop 6)
  else if cs.take 4 = "from".data then tail (cs.drop 4)
  else none

/-- re.findall of the import pattern: left-to-right non-overlapping matches.
`fuel` bounds recursion; any fuel ≥ text length scans the whole text. -/
def findImports (fuel : ℕ) (cs : List Char) (acc : List (List Char)) :
    List (List Char) :=
  match fuel, cs with
  | 0, _ => acc.reverse
  | _, [] => acc.reverse
  | fuel + 1, c :: rest =>
      match matchImportAt (c :: rest) with
      | some (name, r2) => findImports fuel r2 (name :: acc)
      | none => findImports fuel rest acc

/-- Expect a nonempty run of digits then the given delimiter; return the rest. -/
def matchDigitsThen (delim : Char) (cs : List Char) : Option (List Char) :=
  let ds := cs.takeWhile Char.isDigit
  if ds.isEmpty then none
  else
    match cs.dropWhile Char.isDigit with
    | [] => none
    | c :: rest => if c = delim then some rest else none

/-- Try to match `"([a-zA-Z0-9_-]+)":\s*"\d+\.\d+\.\d+"` at the head; on
success return the captured package name and the rest after the match. -/
def matchPkgAt (cs : List Char) : Option (List Char × List Char) :=
  match cs with
  | '"' :: r0 =>
      let name := r0.takeWhile pkgClass
      if name.isEmpty then none
      else
        match r0.dropWhile pkgClass with
        | '"' :: ':' :: r1 =>
            match r1.dropWhile pyIsSpace with
            | '"' :: r2 =>
                match matchDigitsThen '.' r2 with
                | none => none
                | some r3 =>
                    match matchDigitsThen '.' r3 with
                    | none => none
                    | some r4 =>
                        match matchDigitsThen '"' r4 with
                        | none => none
                        | some r5 => some (name, r5)
            | _ => none
        | _ => none
  | _ => none

/-- re.findall of the package pattern. -/
def findPackages (fuel : ℕ) (cs : List Char) (acc : List (List Char)) :
    List (List Char) :=
  match fuel, cs with
  | 0, _ => acc.reverse
  | _, [] => acc.reverse
  | fuel + 1, c :: rest =>
      match matchPkgAt (c :: rest) with
      | some (name, r2) => findPackages fuel r2 (name :: acc)
      | none => findPackages fuel rest acc

/-- The fixed language → extension-pattern table of detect_languages,
in source order (YAML has two alternatives). -/
def languageTable : List (String × List String) :=
  [("Python", [".py"]), ("JavaScript", [".js"]), ("TypeScript", [".ts"]),
   ("Shell", [".sh"]), ("JSON", [".json"]), ("Markdown", [".md"]),
   ("YAML", [".yml", ".yaml"]), ("HTML", [".html"]), ("CSS", [".css"])]

/-- detect_languages: case-insensitive count of `\.EXT\b` matches per
language; languages with zero matches are omitted. -/
def detect_languages (content : List Char) : List (String × ℕ) :=
  let t := content.map Char.toLower
  (languageTable.map (fun e =>
      (e.1, (e.2.map (fun p => countExt p.data t)).sum))).filter
    (fun e => 0 < e.2)

/-- detect_libraries: import-statement names (first dotted segment) plus
quoted-name/semver package entries feed one frequency counter; names of
length ≤ 2 and a fixed stoplist are dropped; the top 30 by descending
count (stable) are kept. -/
def detect_libraries (content : List Char) : List (String × ℕ) :=
  let imports := (findImports content.length content []).map
    (fun n => (n.takeWhile (· != '.')).asString)
  let pkgs := (findPackages content.length content []).map List.asString
  let counts := (imports ++ pkgs).foldl (fun a n => addCount a n 1) []
  let filtered := counts.filter
    (fun p => decide (2 < p.1.length)
      && !(p.1 == "sys" || p.1 == "os" || p.1 == "io" || p.1 == "re"))
  (pySortDesc filtered).take 30

/-- Does one framework signature match (case-insensitively) anywhere? -/
def frameworkMatch (name : String) (lower : List Char) : Bool :=
  if name = "pytest" then containsWord "pytest".data lower
  else if name = "GitHub Actions" then containsSub ".github/workflows".data lower
  else if name = "Git" then containsWord "git".data lower
  else if name = "Docker" then containsWord "docker".data lower
  else if name = "Claude Code" then
    containsClaudeDotCode lower || containsSub "claude-plugin".data lower
  else if name = "Ollama" then containsWord "ollama".data lower
  else if name = "MCP" then containsWord "mcp".data lower
  else false

/-- The framework names in Python sorted() order (the set of matches is
returned alphabetically sorted). -/
def frameworkNamesSorted : List String :=
  ["Claude Code", "Docker", "Git", "GitHub Actions", "MCP", "Ollama", "pytest"]

/-- detect_frameworks: signature table membership, result alphabetically
sorted. -/
def detect_frameworks (content : List Char) : List String :=
  let t := content.map Char.toLower
  frameworkNamesSorted.filter (fun n => frameworkMatch n t)

/-! ## Data model of the filtered profile -/

/-- One parsed commit record (date string plus epoch-seconds timestamp). -/
structure Commit where
  date : String
  timestamp : ℚ
deriving DecidableEq

/-- RepositoryAnalysis: the per-repository record produced by
analyze_single_repo in filtering.py. -/
structure RepoAnalysis where
  name : String
  languages : List (String × ℕ)
  libraries : List (String × ℕ)
  frameworks : List String
  commits : List Commit
  size_kb : ℚ
  file_types : List (String × ℕ)
  test_coverage : ℚ
deriving DecidableEq

/-- FilteredProfile: output of create_filtered_data. -/
structure FilteredProfile where
  repositories : List RepoAnalysis
  total_commits : ℕ
  commit_dates : List String
deriving DecidableEq

/-! ## Translated profile structures -/

structure Habits where
  frequency : ℚ
  consistency : ℚ
  avg_commit_size_kb : ℚ
  commit_pattern : String
deriving DecidableEq

structure TechnicalDepth where
  depth_score : ℚ
  avg_repo_size_kb : ℚ
  max_repo_size_kb : ℚ
  level : String
deriving DecidableEq

structure Composition where
  frontend : ℚ
  backend : ℚ
  data : ℚ
deriving DecidableEq

structure Quality where
  avg_test_coverage : ℚ
  quality_score : ℚ
  rating : String
deriving DecidableEq

structure ProfileMetadata where
  total_repositories : ℕ
  total_commits : ℕ
  analysis_timestamp : String
deriving DecidableEq

structure TranslatedProfile where
  languages : List (String × ℚ)
  libraries : List (String × ℕ)
  frameworks : List (String × ℕ)
  habits : Habits
  technical_depth : TechnicalDepth
  composition : Composition
  skills : List (String × ℚ)
  quality : Quality
  metadata : ProfileMetadata
deriving DecidableEq

/-! ## create_translated_data (filtering.py), split into its sections -/

/-- Language count aggregation across repositories. -/
def aggLanguageCounts (fp : FilteredProfile) : List (String × ℕ) :=
  fp.repositories.foldl
    (fun acc r => r.languages.foldl (fun a p => addCount a p.1 p.2) acc) []

/-- Grand total of aggregated language occurrences. -/
def totalLangCount (fp : FilteredProfile) : ℕ :=
  ((aggLanguageCounts fp).map (·.2)).sum

/-- Language percentages: count/total × 100 rounded to 2 decimals; empty
when the total is 0. -/
def aggLanguages (fp : FilteredProfile) : List (String × ℚ) :=
  let total := totalLangCount fp
  if 0 < total then
    (aggLanguageCounts fp).map
      (fun p => (p.1, pyround 2 ((p.2 : ℚ) / (total : ℚ) * 100)))
  else []

/-- Library count aggregation: per-repository counts are summed per name. -/
def aggLibraryCounts (fp : FilteredProfile) : List (String × ℕ) :=
  fp.repositories.foldl
    (fun acc r => r.libraries.foldl (fun a p => addCount a p.1 p.2) acc) []

/-- Aggregated libraries sorted descending by count (stable). -/
def aggLibraries (fp : FilteredProfile) : List (String × ℕ) :=
  pySortDesc (aggLibraryCounts fp)

/-- Framework aggregation: each occurrence in a repository's framework list
adds one. -/
def aggFrameworkCounts (fp : FilteredProfile) : List (String × ℕ) :=
  fp.repositories.foldl
    (fun acc r => r.frameworks.foldl (fun a fw => addCount a fw 1) acc) []

/-- Aggregated frameworks sorted descending by count (stable). -/
def aggFrameworks (fp : FilteredProfile) : List (String × ℕ) :=
  pySortDesc (aggFrameworkCounts fp)

/-- all_commits: every repository's commits concatenated in order. -/
def allCommits (fp : FilteredProfile) : List Commit :=
  fp.repositories.foldl (fun a r => a ++ r.commits) []

/-- commit_sizes: for each repository with commits, its size divided by its
commit count, repeated once per commit (commit-weighted). -/
def commitSizesOf (fp : FilteredProfile) : List ℚ :=
  fp.repositories.foldl
    (fun a r =>
      if 0 < r.commits.length then
        a ++ List.replicate r.commits.length (r.size_kb / (r.commits.length : ℚ))
      else a) []

/-- Timestamps of all commits, keeping only truthy (nonzero) values, as in
`[c['timestamp'] for c in all_commits if c.get('timestamp')]`. -/
def timestampsOf (fp : FilteredProfile) : List ℚ :=
  ((allCommits fp).filter (fun c => c.timestamp != 0)).map (·.timestamp)

/-- Commit frequency: count ÷ max(timespan-in-weeks, 1) when more than one
timestamp exists and the span is positive, else 0. -/
def frequencyOf (fp : FilteredProfile) : Option ℚ :=
  let ts := timestampsOf fp
  if 1 < ts.length then do
    let mx ← pymax ts
    let mn ← pymin ts
    let spanDays := (mx - mn) / 86400
    pure (if 0 < spanDays then (ts.length : ℚ) / max (spanDays / 7) 1 else 0)
  else pure 0

/-- Successive inter-commit intervals, in list order. -/
def intervalsOf (l : List ℚ) : List ℚ :=
  List.zipWith (fun a b => a - b) l.tail l

/-- Commit consistency: 1 / (1 + stdev(intervals)/86400) when more than two
timestamps exist, else 0. -/
def consistencyOf (fp : FilteredProfile) : Option ℚ :=
  let ts := timestampsOf fp
  if 2 < ts.length then
    (pystdev (intervalsOf ts)).map (fun sd => 1 / (1 + sd / 86400))
  else pure 0

/-- Mean commit size, 0 when no commit sizes exist. -/
def avgCommitSizeOf (fp : FilteredProfile) : Option ℚ :=
  let cs := commitSizesOf fp
  if cs.isEmpty then pure 0 else pymean cs

/-- The commit_pattern threshold chain on the (unrounded) frequency. -/
def commitPattern (f : ℚ) : String :=
  if 5 < f then "daily"
  else if 2 < f then "regular"
  else if 1/2 < f then "weekly"
  else "sporadic"

/-- The technical-depth level threshold chain. -/
def depthLevel (ds : ℚ) : String :=
  if 7/10 < ds then "advanced"
  else if 2/5 < ds then "intermediate"
  else "beginner"

/-- Technical depth block of create_translated_data. -/
def technicalDepthOf (fp : FilteredProfile) : Option TechnicalDepth := do
  let sizes := fp.repositories.map (·.size_kb)
  let avg ← if sizes.isEmpty then pure 0 else pymean sizes
  let mx ← if sizes.isEmpty then pure 0 else pymax sizes
  let ds := min (avg / 500) 1
  pure ⟨pyround 3 ds, pyround 2 avg, pyround 2 mx, depthLevel ds⟩

def frontendTypes : List String :=
  ["html", "css", "scss", "sass", "jsx", "tsx", "vue", "md"]
def backendTypes : List String :=
  ["py", "sh", "js", "ts", "json", "yml", "yaml"]
def dataTypes : List String := ["json", "csv", "xml"]

/-- Sum of file-type counts falling in one bucket, across repositories. -/
def bucketCount (fp : FilteredProfile) (bucket : List String) : ℕ :=
  (fp.repositories.map (fun r =>
    ((r.file_types.filter (fun p => bucket.contains p.1)).map (·.2)).sum)).sum

/-- Composition block: bucket totals normalized by their combined sum. -/
def compositionOf (fp : FilteredProfile) : Composition :=
  let f := bucketCount fp frontendTypes
  let b := bucketCount fp backendTypes
  let d := bucketCount fp dataTypes
  let total := f + b + d
  if 0 < total then
    ⟨pyround 3 ((f : ℚ) / (total : ℚ)), pyround 3 ((b : ℚ) / (total : ℚ)),
     pyround 3 ((d : ℚ) / (total : ℚ))⟩
  else ⟨0, 0, 0⟩

/-- Case-folded union of all library and framework names. -/
def combinedNames (fp : FilteredProfile) : List String :=
  fp.repositories.foldl
    (fun a r => a ++ r.libraries.map (fun p => p.1.toLower)
      ++ r.frameworks.map String.toLower) []

def devtoolsIndicators : List String :=
  ["pytest", "git", "github", "docker", "validation", "scaffold"]
def aiMlIndicators : List String := ["ollama", "claude", "llm", "ai", "ml"]
def pluginIndicators : List String := ["plugin", "marketplace", "cli", "tools"]

/-- Indicator-set skill score: |combined ∩ indicators| ÷ |indicators|. -/
def indicatorScore (fp : FilteredProfile) (ind : List String) : ℚ :=
  ((ind.filter (fun i => (combinedNames fp).contains i)).length : ℚ)
    / (ind.length : ℚ)

/-- Skills block: three indicator scores, rounded, scores ≤ 0.05 dropped. -/
def skillsOf (fp : FilteredProfile) : List (String × ℚ) :=
  (([("devtools_automation", indicatorScore fp devtoolsIndicators),
     ("ai_ml", indicatorScore fp aiMlIndicators),
     ("plugin_development", indicatorScore fp pluginIndicators)]
    : List (String × ℚ)).filter (fun p => decide ((1/20 : ℚ) < p.2))).map
    (fun p => (p.1, pyround 3 p.2))

/-- The quality rating threshold chain on the average coverage. -/
def qualityRating (avg : ℚ) : String :=
  if 70 < avg then "excellent"
  else if 40 < avg then "good"
  else if 20 < avg then "fair"
  else "needs_improvement"

/-- Quality block of create_translated_data. -/
def qualityOf (fp : FilteredProfile) : Option Quality := do
  let cov := fp.repositories.map (·.test_coverage)
  let avg ← if cov.isEmpty then pure 0 else pymean cov
  pure ⟨pyround 2 avg, pyround 3 (min (avg / 100) 1), qualityRating avg⟩

/-- create_translated_data: the filtering-module Developer Translator.
The wall-clock datetime.now() is threaded as the explicit `now` argument;
a `none` result models an uncaught Python exception (none of the guards in
the source allow one). -/
def createTranslatedData (fp : FilteredProfile) (now : String) :
    Option TranslatedProfile := do
  let frequency ← frequencyOf fp
  let consistency ← consistencyOf fp
  let acs ← avgCommitSizeOf fp
  let td ← technicalDepthOf fp
  let q ← qualityOf fp
  pure
    { languages := aggLanguages fp
      libraries := aggLibraries fp
      frameworks := aggFrameworks fp
      habits := ⟨pyround 2 frequency, pyround 3 consistency, pyround 2 acs,
        commitPattern frequency⟩
      technical_depth := td
      composition := compositionOf fp
      skills := skillsOf fp
      quality := q
      metadata := ⟨fp.repositories.length, fp.total_commits, now⟩ }

/-! ## DeveloperProfile1 (translation.py): the second translator

Only the aggregation methods cited by the claims are embedded.  Language
maps in a FilteredProfile are dictionaries, so the dict branch of
language_aggregation applies. -/

/-- DeveloperProfile1.language_aggregation. -/
def DP1_language_aggregation (fp : FilteredProfile) : List (String × ℚ) :=
  let counts := fp.repositories.foldl
    (fun acc r => r.languages.foldl (fun a p => addCount a p.1 p.2) acc) []
  let total : ℕ := (counts.map (·.2)).sum
  if total = 0 then []
  else counts.map (fun p => (p.1, pyround 2 ((p.2 : ℚ) / (total : ℚ) * 100)))

/-- DeveloperProfile1.library_aggregation: iterating a repository's
libraries dictionary yields its KEYS, so each repository contributes one
per library name, regardless of that repository's count. -/
def DP1_library_aggregation (fp : FilteredProfile) : List (String × ℕ) :=
  let counts := fp.repositories.foldl
    (fun acc r => r.libraries.foldl (fun a p => addCount a p.1 1) acc) []
  pySortDesc counts

/-- DeveloperProfile1.framework_aggregation: the method computes the sorted
counts but has no return statement, so it returns Python None. -/
def DP1_framework_aggregation (fp : FilteredProfile) :
    Option (List (String × ℕ)) :=
  let counts := fp.repositories.foldl
    (fun acc r => r.frameworks.foldl (fun a fw => addCount a fw 1) acc) []
  let sorted_frames := pySortDesc counts
  let _ := sorted_frames
  none

/-! ## Predictive modeler (modelling.py) -/

structure SkillVector where
  backend : ℚ
  frontend : ℚ
  data : ℚ
  ai_ml : ℚ
  cloud_infrastructure : ℚ
  architecture : ℚ
deriving DecidableEq

structure CodeStyleProfile where
  type_safety_preference : ℚ
  functional_vs_oop : ℚ
  language_diversity : ℚ
  complexity_tolerance : ℚ
deriving DecidableEq

structure FrictionProfile where
  react_friction : ℚ
  vue_friction : ℚ
  typescript_friction : ℚ
  python_typing_friction : ℚ
  ml_project_friction : ℚ
  devops_friction : ℚ
  microservices_friction : ℚ
  fullstack_friction : ℚ
  mobile_friction : ℚ
deriving DecidableEq

structure CapabilityAssessment where
  api_service : ℚ
  cli_tool : ℚ
  data_pipeline : ℚ
  ml_model : ℚ
  frontend_app : ℚ
  fullstack_app : ℚ
  infrastructure : ℚ
  plugin_system : ℚ
deriving DecidableEq

/-- The fields of the translated-profile JSON document that the predictive
model reads (self.data accesses in modelling.py). -/
structure ModelInput where
  languages : List (String × ℚ)
  libraries : List (String × ℕ)
  skills : List (String × ℚ)
  composition : Composition
  quality_score : ℚ
  depth_score : ℚ
  avg_repo_size : ℚ
  total_repositories : ℕ
  analysis_timestamp : String
deriving DecidableEq

/-- Number of library names whose lower-case form is in the indicator set. -/
def countLibsIn (m : ModelInput) (ind : List String) : ℕ :=
  (m.libraries.filter (fun p => ind.contains p.1.toLower)).length

/-- Is some library name (case-folded) in the given set? -/
def anyLibIn (m : ModelInput) (ind : List String) : Bool :=
  m.libraries.any (fun p => ind.contains p.1.toLower)

/-- _infer_devtools_skill. -/
def inferDevtoolsSkill (m : ModelInput) : ℚ :=
  let cli_score := min ((countLibsIn m ["argparse", "click", "typer", "rich", "colorama"] : ℚ) / 2) 1
  let advanced_score := min ((countLibsIn m ["functools", "itertools", "collections", "heapq", "lru_cache", "cache", "deque"] : ℚ) / 4) 1
  let testing_score := min ((countLibsIn m ["pytest", "unittest", "mock"] : ℚ) / 2) 1
  pyround 3 (cli_score * (35/100) + advanced_score * (25/100)
    + testing_score * (25/100) + m.quality_score * (15/100))

/-- compute_skill_vector. -/
def computeSkillVector (m : ModelInput) : SkillVector :=
  let python_strength := lookupD m.languages "Python" 0 / 100
  let backend := m.composition.backend * (5/10) + python_strength * (3/10)
    + m.quality_score * (2/10)
  let frontend_langs := (lookupD m.languages "JavaScript" 0
    + lookupD m.languages "TypeScript" 0 + lookupD m.languages "HTML" 0
    + lookupD m.languages "CSS" 0) / 100
  let frontend := m.composition.frontend * (7/10) + frontend_langs * (3/10)
  let dataSkill := m.composition.data * (5/10)
    + lookupD m.skills "data_engineering" 0 * (5/10)
  let ai_ml := lookupD m.skills "ai_ml" 0
    + (if anyLibIn m ["openai", "anthropic", "langchain"] then 2/10 else 0)
  let cloud := lookupD m.skills "cloud_devops" 0
  let architecture := m.depth_score * (5/10) + m.quality_score * (3/10)
    + min (m.avg_repo_size / 2000) 1 * (2/10)
  { backend := pyround 3 (min backend 1)
    frontend := pyround 3 (min frontend 1)
    data := pyround 3 (min dataSkill 1)
    ai_ml := pyround 3 (min ai_ml 1)
    cloud_infrastructure := pyround 3 cloud
    architecture := pyround 3 (min architecture 1) }

/-- compute_code_style_profile. -/
def computeCodeStyleProfile (m : ModelInput) : CodeStyleProfile :=
  let ts_usage := lookupD m.languages "TypeScript" 0
  let type_safety := ts_usage / 50
    + (if anyLibIn m ["typing", "mypy", "pydantic"] then 3/10 else 0)
  let func_count := countLibsIn m ["functools", "itertools", "map", "filter", "reduce"]
  let functional_vs_oop : ℚ := if 2 < func_count then 3/10 else 7/10
  let lang_count := (m.languages.filter (fun p => decide ((1 : ℚ) < p.2))).length
  let language_diversity := min ((lang_count : ℚ) / 6) 1
  { type_safety_preference := pyround 3 (min type_safety 1)
    functional_vs_oop := pyround 3 functional_vs_oop
    language_diversity := pyround 3 language_diversity
    complexity_tolerance := pyround 3 m.depth_score }

/-- compute_friction_profile. -/
def computeFrictionProfile (m : ModelInput) (sv : SkillVector)
    (cs : CodeStyleProfile) : FrictionProfile :=
  let te := cs.type_safety_preference
  { react_friction := pyround 3 (max (1 - (sv.frontend * (4/10) + te * (3/10)
      + cs.complexity_tolerance * (3/10))) 0)
    vue_friction := pyround 3 (max (1 - (sv.frontend * (6/10)
      + cs.language_diversity * (4/10))) 0)
    typescript_friction := pyround 3 (max (1 - (te * (5/10)
      + sv.frontend * (3/10) + cs.complexity_tolerance * (2/10))) 0)
    python_typing_friction := pyround 3 (max (1 - (te * (6/10)
      + sv.backend * (4/10))) 0)
    ml_project_friction := pyround 3 (max (1 - (sv.ai_ml * (4/10)
      + sv.data * (3/10) + sv.backend * (2/10)
      + m.quality_score * (1/10))) 0)
    devops_friction := pyround 3 (max (1 - (sv.cloud_infrastructure * (6/10)
      + sv.backend * (4/10))) 0)
    microservices_friction := pyround 3 (max (1 - (sv.architecture * (4/10)
      + sv.backend * (3/10) + sv.cloud_infrastructure * (3/10))) 0)
    fullstack_friction := pyround 3 (max (1 - (sv.frontend * (4/10)
      + sv.backend * (4/10) + sv.architecture * (2/10))) 0)
    mobile_friction := pyround 3 (max (1 - (sv.frontend * (5/10)
      + cs.language_diversity * (3/10) + sv.architecture * (2/10))) 0) }

/-- compute_capability_assessment (its code_style parameter is unused in the
source as well). -/
def computeCapabilityAssessment (m : ModelInput) (sv : SkillVector)
    (_cs : CodeStyleProfile) : CapabilityAssessment :=
  let quality := m.quality_score
  let devtools_skill := inferDevtoolsSkill m
  { api_service := pyround 3 (min (sv.backend * (5/10)
      + sv.architecture * (3/10) + quality * (2/10)) 1)
    cli_tool := pyround 3 (min (sv.backend * (4/10)
      + devtools_skill * (4/10) + quality * (2/10)) 1)
    data_pipeline := pyround 3 (min (sv.data * (4/10)
      + sv.backend * (4/10) + sv.architecture * (2/10)) 1)
    ml_model := pyround 3 (min (sv.ai_ml * (5/10)
      + sv.data * (3/10) + quality * (2/10)) 1)
    frontend_app := pyround 3 (min (sv.frontend * (7/10)
      + quality * (3/10)) 1)
    fullstack_app := pyround 3 (min (sv.frontend * (3/10)
      + sv.backend * (4/10) + sv.architecture * (3/10)) 1)
    infrastructure := pyround 3 (min (sv.cloud_infrastructure * (5/10)
      + sv.backend * (3/10) + sv.architecture * (2/10)) 1)
    plugin_system := pyround 3 (min (sv.backend * (4/10)
      + sv.architecture * (3/10) + devtools_skill * (3/10)) 1) }

/-- asdict(skill_vector): field order of the dataclass. -/
def svAsList (sv : SkillVector) : List (String × ℚ) :=
  [("backend", sv.backend), ("frontend", sv.frontend), ("data", sv.data),
   ("ai_ml", sv.ai_ml), ("cloud_infrastructure", sv.cloud_infrastructure),
   ("architecture", sv.architecture)]

/-- identify_skill_gaps: dimensions < 0.5 reported as 1 - score, sorted
descending by gap. -/
def identifySkillGaps (sv : SkillVector) : List (String × ℚ) :=
  pySortDesc (((svAsList sv).filter (fun p => decide (p.2 < 1/2))).map
    (fun p => (p.1, pyround 3 (1 - p.2))))

/-- One learning-path recommendation record. -/
structure Recommendation where
  area : String
  priority : String
  friction : ℚ
  rationale : String
  suggested_tech : List String
  estimated_friction : ℚ
deriving DecidableEq

/-- recommend_learning_path. -/
def recommendLearningPath (sv : SkillVector) (fric : FrictionProfile) :
    List Recommendation :=
  (if 6/10 < sv.backend ∧ sv.frontend < 3/10 then
    [⟨"Frontend Development", "high", fric.react_friction,
      "Strong backend provides foundation for fullstack capability",
      [if fric.react_friction < 6/10 then "React" else "Vue",
       "TypeScript", "Tailwind CSS"], fric.react_friction⟩]
  else []) ++
  (if 4/10 < sv.data ∧ sv.ai_ml < 3/10 then
    [⟨"AI/ML Engineering", "medium", fric.ml_project_friction,
      "Data skills provide foundation for ML work",
      ["OpenAI API", "LangChain", "Vector DBs"], fric.ml_project_friction⟩]
  else []) ++
  (if 6/10 < sv.backend ∧ sv.cloud_infrastructure < 2/10 then
    [⟨"Cloud Infrastructure", "medium", fric.devops_friction,
      "Backend expertise needs cloud deployment skills",
      ["Docker", "AWS/Vercel", "CI/CD"], fric.devops_friction⟩]
  else [])

/-- asdict(capabilities).get(project_type): the eight dataclass fields. -/
def capLookup (c : CapabilityAssessment) (t : String) : Option ℚ :=
  if t = "api_service" then some c.api_service
  else if t = "cli_tool" then some c.cli_tool
  else if t = "data_pipeline" then some c.data_pipeline
  else if t = "ml_model" then some c.ml_model
  else if t = "frontend_app" then some c.frontend_app
  else if t = "fullstack_app" then some c.fullstack_app
  else if t = "infrastructure" then some c.infrastructure
  else if t = "plugin_system" then some c.plugin_system
  else none

/-- asdict(friction).get(field): the nine dataclass fields. -/
def fricLookup (f : FrictionProfile) (t : String) : Option ℚ :=
  if t = "react_friction" then some f.react_friction
  else if t = "vue_friction" then some f.vue_friction
  else if t = "typescript_friction" then some f.typescript_friction
  else if t = "python_typing_friction" then some f.python_typing_friction
  else if t = "ml_project_friction" then some f.ml_project_friction
  else if t = "devops_friction" then some f.devops_friction
  else if t = "microservices_friction" then some f.microservices_friction
  else if t = "fullstack_friction" then some f.fullstack_friction
  else if t = "mobile_friction" then some f.mobile_friction
  else none

/-- The fixed project-type → friction-field mapping; the default is the
empty string, which has no friction field. -/
def frictionMapField (t : String) : String :=
  if t = "frontend_app" then "react_friction"
  else if t = "fullstack_app" then "fullstack_friction"
  else if t = "ml_model" then "ml_project_friction"
  else if t = "infrastructure" then "devops_friction"
  else if t = "cli_tool" then "python_typing_friction"
  else ""

/-- A tension point; the message text of predict_project_success is
abstracted into a constructor per template, with its numeric payloads. -/
inductive TensionPoint where
  | lowCapability (score : ℚ)
  | highFriction (score : ℚ)
  | lowQuality
deriving DecidableEq

/-- The risk bucket thresholds. -/
def riskLevel (success : ℚ) : String :=
  if 7/10 < success then "low"
  else if 4/10 < success then "medium"
  else "high"

/-- The fixed per-project skill-gap threshold table (_identify_project_gaps);
unknown project types map to the empty list. -/
def gapMap (t : String) : List (String × ℚ) :=
  if t = "frontend_app" then [("frontend", 5/10), ("architecture", 4/10)]
  else if t = "fullstack_app" then
    [("frontend", 5/10), ("backend", 6/10), ("architecture", 5/10)]
  else if t = "ml_model" then [("ai_ml", 4/10), ("data", 4/10)]
  else if t = "infrastructure" then
    [("cloud_infrastructure", 4/10), ("backend", 5/10)]
  else []

/-- _identify_project_gaps: skills below their project-specific threshold,
reported as (skill, value, threshold); message formatting is abstracted. -/
def identifyProjectGaps (t : String) (skills : List (String × ℚ)) :
    List (String × ℚ × ℚ) :=
  ((gapMap t).filter (fun p => decide (lookupD skills p.1 0 < p.2))).map
    (fun p => (p.1, lookupD skills p.1 0, p.2))

/-- Result record of predict_project_success. -/
structure PredictionResult where
  project_type : String
  success_likelihood : ℚ
  friction_score : ℚ
  risk_level : String
  tension_points : List TensionPoint
  skill_gaps : List (String × ℚ × ℚ)
deriving DecidableEq

/-- predict_project_success: a total function of the project-type tag, the
capability and friction profiles, and the model input. -/
def predictProjectSuccess (m : ModelInput) (t : String)
    (cap : CapabilityAssessment) (fric : FrictionProfile) : PredictionResult :=
  let success := (capLookup cap t).getD (1/2)
  let relevant := (fricLookup fric (frictionMapField t)).getD (1/2)
  let tensions :=
    (if success < 4/10 then [TensionPoint.lowCapability success] else []) ++
    (if 6/10 < relevant then [TensionPoint.highFriction relevant] else []) ++
    (if m.quality_score < 1/2 then [TensionPoint.lowQuality] else [])
  { project_type := t
    success_likelihood := pyround 3 success
    friction_score := pyround 3 relevant
    risk_level := riskLevel success
    tension_points := tensions
    skill_gaps := identifyProjectGaps t (svAsList (computeSkillVector m)) }

/-- The terminal artifact of generate_predictive_profile (metadata fields
inlined). -/
structure PredictiveProfile where
  skill_vector : SkillVector
  code_style_profile : CodeStyleProfile
  friction_profile : FrictionProfile
  capability_assessment : CapabilityAssessment
  skill_gaps : List (String × ℚ)
  learning_recommendations : List Recommendation
  devtools_skill : ℚ
  model_version : String
  based_on_repos : ℕ
  data_source : String
  analysis_timestamp : String
deriving DecidableEq

/-- generate_predictive_profile. -/
def generatePredictiveProfile (m : ModelInput) : PredictiveProfile :=
  let sv := computeSkillVector m
  let cs := computeCodeStyleProfile m
  let fric := computeFrictionProfile m sv cs
  let cap := computeCapabilityAssessment m sv cs
  { skill_vector := sv
    code_style_profile := cs
    friction_profile := fric
    capability_assessment := cap
    skill_gaps := identifySkillGaps sv
    learning_recommendations := recommendLearningPath sv fric
    devtools_skill := inferDevtoolsSkill m
    model_version := "2.0.0"
    based_on_repos := m.total_repositories
    data_source := "static_analysis_only"
    analysis_timestamp := m.analysis_timestamp }

/-! ## Auxiliary definitions for the claim statements -/

/-- Membership of a score in the documented unit interval. -/
def InUnit (x : ℚ) : Prop := 0 ≤ x ∧ x ≤ 1

/-- A TranslatedProfile JSON document is valid when every documented field
carries a value in its documented range: language percentages in [0,100],
skill scores in [0,1], composition fractions in [0,1] summing to at most 1,
quality_score and depth_score in [0,1], nonnegative average repository
size. -/
def ValidModelInput (m : ModelInput) : Prop :=
  (∀ p ∈ m.languages, 0 ≤ p.2 ∧ p.2 ≤ 100) ∧
  (∀ p ∈ m.skills, 0 ≤ p.2 ∧ p.2 ≤ 1) ∧
  InUnit m.composition.frontend ∧ InUnit m.composition.backend ∧
  InUnit m.composition.data ∧
  m.composition.frontend + m.composition.backend + m.composition.data ≤ 1 ∧
  InUnit m.quality_score ∧ InUnit m.depth_score ∧ 0 ≤ m.avg_repo_size

/-- Erase the wall-clock metadata timestamp of a translated profile. -/
def eraseTP (tp : TranslatedProfile) : TranslatedProfile :=
  { tp with metadata := { tp.metadata with analysis_timestamp := "" } }

/-- Erase the propagated metadata timestamp of a predictive profile. -/
def erasePP (pp : PredictiveProfile) : PredictiveProfile :=
  { pp with analysis_timestamp := "" }

/-- Total wrappers of max()/min() for use in claim statements (default 0). -/
def listMaxD (l : List ℚ) : ℚ := (pymax l).getD 0
def listMinD (l : List ℚ) : ℚ := (pymin l).getD 0

/-- Sum, over all repositories, of a library name's per-repository counts. -/
def sumLibCounts (fp : FilteredProfile) (name : String) : ℕ :=
  (fp.repositories.map (fun r =>
    ((r.libraries.filter (fun p => decide (p.1 = name))).map (·.2)).sum)).sum

/-- Number of occurrences of a framework name across all repositories'
framework lists. -/
def sumFwOcc (fp : FilteredProfile) (name : String) : ℕ :=
  (fp.repositories.map (fun r =>
    (r.frameworks.filter (fun f => decide (f = name))).length)).sum

/-! ## Concrete inputs used by the counterexamples and witnesses -/

/-- The C1 scenario: one repository section holding a file `app.py` and a
file `requirements.txt` whose content is `flask==2.0.0`. -/
def content1 : String :=
  "FILE: app.py\nprint(1)\n\nFILE: requirements.txt\nflask==2.0.0\n"

/-- A repository analysis with a library counted 3 times and one framework. -/
def repo2a : RepoAnalysis :=
  ⟨"r1", [], [("aaa", 2)], ["Git"], [], 0, [], 0⟩
def repo2b : RepoAnalysis :=
  ⟨"r2", [], [("aaa", 3), ("bbb", 1)], ["Git", "Docker"], [], 0, [], 0⟩
def fp2w : FilteredProfile := ⟨[repo2a, repo2b], 0, []⟩

/-- A single repository whose only library has count 3: membership counting
(1) differs from count summing (3). -/
def fp2c : FilteredProfile :=
  ⟨[⟨"r1", [], [("numpy", 3)], ["Git"], [], 0, [], 0⟩], 0, []⟩

/-- Two commits with the same nonzero timestamp. -/
def fp3c : FilteredProfile :=
  ⟨[⟨"r", [], [], [], [⟨"a", 1000⟩, ⟨"b", 1000⟩], 1, [], 0⟩], 2, ["a", "b"]⟩

/-- Two commits 1000 epoch-seconds apart. -/
def fp3w : FilteredProfile :=
  ⟨[⟨"r", [], [], [], [⟨"a", 1000⟩, ⟨"b", 2000⟩], 1, [], 0⟩], 2, ["a", "b"]⟩

/-- The translated profile of fp3w. -/
def tp3w : TranslatedProfile :=
  { languages := [], libraries := [], frameworks := []
    habits := ⟨2, 0, 1/2, "weekly"⟩
    technical_depth := ⟨1/500, 1, 1, "beginner"⟩
    composition := ⟨0, 0, 0⟩, skills := []
    quality := ⟨0, 0, "needs_improvement"⟩
    metadata := ⟨1, 2, "t"⟩ }

/-- The translated profile of fp2w. -/
def tp2w : TranslatedProfile :=
  { languages := []
    libraries := [("aaa", 5), ("bbb", 1)]
    frameworks := [("Git", 2), ("Docker", 1)]
    habits := ⟨0, 0, 0, "sporadic"⟩
    technical_depth := ⟨0, 0, 0, "beginner"⟩
    composition := ⟨0, 0, 0⟩
    skills := [("devtools_automation", 333/1000)]
    quality := ⟨0, 0, "needs_improvement"⟩
    metadata := ⟨2, 0, "t"⟩ }

/-- One repository using only Python. -/
def fp5w : FilteredProfile := ⟨[⟨"r", [("Python", 3)], [], [], [], 0, [], 0⟩], 0, []⟩

/-- The translated profile of fp5w. -/
def tp5w : TranslatedProfile :=
  { languages := [("Python", 100)], libraries := [], frameworks := []
    habits := ⟨0, 0, 0, "sporadic"⟩
    technical_depth := ⟨0, 0, 0, "beginner"⟩
    composition := ⟨0, 0, 0⟩, skills := []
    quality := ⟨0, 0, "needs_improvement"⟩
    metadata := ⟨1, 0, "t"⟩ }

/-- The all-zero model input (an empty but valid translated document). -/
def m0 : ModelInput := ⟨[], [], [], ⟨0, 0, 0⟩, 0, 0, 0, 0, ""⟩

/-- The C7 scenario input: quality 0.8, backend composition 0.9, no ai_ml
skill entry. -/
def m7 : ModelInput := ⟨[], [], [], ⟨0, 9/10, 1/10⟩, 8/10, 0, 0, 0, ""⟩

def cap0 : CapabilityAssessment := ⟨0, 0, 0, 0, 0, 0, 0, 0⟩
def fric0 : FrictionProfile := ⟨0, 0, 0, 0, 0, 0, 0, 0, 0⟩

/-! ## Lemmas about the numeric helpers -/

theorem ratFloor_eq_floor (x : ℚ) : ratFloor x = ⌊x⌋ := by
  rw [Rat.floor_def]
  exact Int.fdiv_eq_ediv _ (by positivity)

theorem rhe_ge_floor (x : ℚ) : ⌊x⌋ ≤ rhe x := by
  unfold rhe; rw [ratFloor_eq_floor]; split_ifs <;> omega

theorem rhe_le_ceil (x : ℚ) : rhe x ≤ ⌈x⌉ := by
  have hfc : ⌊x⌋ ≤ ⌈x⌉ := Int.floor_le_ceil x
  have hlc : x ≤ (⌈x⌉ : ℚ) := Int.le_ceil x
  have hfl : (⌊x⌋ : ℚ) ≤ x := Int.floor_le x
  unfold rhe
  simp only [ratFloor_eq_floor]
  split_ifs with h1 h2 h3
  · exact hfc
  · have : (⌊x⌋ : ℚ) < ⌈x⌉ := by linarith
    have : ⌊x⌋ < ⌈x⌉ := by exact_mod_cast this
    omega
  · exact hfc
  · have : (⌊x⌋ : ℚ) < ⌈x⌉ := by linarith
    have : ⌊x⌋ < ⌈x⌉ := by exact_mod_cast this
    omega

theorem rhe_abs (x : ℚ) : |(rhe x : ℚ) - x| ≤ 1/2 := by
  have hfl : (⌊x⌋ : ℚ) ≤ x := Int.floor_le x
  have hfu : x < (⌊x⌋ : ℚ) + 1 := Int.lt_floor_add_one x
  unfold rhe
  simp only [ratFloor_eq_floor]
  split_ifs with h1 h2 h3 <;> rw [abs_le] <;> constructor <;> push_cast <;> linarith

theorem pyround_abs (p : ℕ) (x : ℚ) : |pyround p x - x| ≤ 1 / (2 * 10 ^ p) := by
  have hp : (0 : ℚ) < 10 ^ p := by positivity
  have h := rhe_abs (x * 10 ^ p)
  have key : pyround p x - x = ((rhe (x * 10 ^ p) : ℚ) - x * 10 ^ p) / 10 ^ p := by
    unfold pyround; field_simp; ring
  rw [key, abs_div, abs_of_pos hp]
  rw [div_le_iff₀ hp]
  have heq : (1 : ℚ) / (2 * 10 ^ p) * 10 ^ p = 1/2 := by
    rw [div_mul_eq_mul_div, one_mul, mul_comm 2 ((10 : ℚ) ^ p)]
    calc (10 : ℚ) ^ p / (10 ^ p * 2) = (10 ^ p * 1) / (10 ^ p * 2) := by
          rw [mul_one]
      _ = 1/2 := mul_div_mul_left 1 2 (ne_of_gt hp)
  rw [heq]
  exact h

theorem pyround_le_add (p : ℕ) (x : ℚ) : pyround p x ≤ x + 1 / (2 * 10 ^ p) := by
  have h := abs_le.mp (pyround_abs p x)
  linarith [h.2]

theorem pyround_ge_sub (p : ℕ) (x : ℚ) : x - 1 / (2 * 10 ^ p) ≤ pyround p x := by
  have h := abs_le.mp (pyround_abs p x)
  linarith [h.1]

theorem pyround_nonneg (p : ℕ) {x : ℚ} (h : 0 ≤ x) : 0 ≤ pyround p x := by
  have hp : (0 : ℚ) < 10 ^ p := by positivity
  have h1 : (0 : ℤ) ≤ ⌊x * 10 ^ p⌋ := Int.floor_nonneg.mpr (by positivity)
  have h2 : (0 : ℤ) ≤ rhe (x * 10 ^ p) := le_trans h1 (rhe_ge_floor _)
  unfold pyround
  exact div_nonneg (by exact_mod_cast h2) (le_of_lt hp)

theorem pyround_le_one (p : ℕ) {x : ℚ} (h : x ≤ 1) : pyround p x ≤ 1 := by
  have hp : (0 : ℚ) < 10 ^ p := by positivity
  have h1 : ⌈x * 10 ^ p⌉ ≤ (10 : ℤ) ^ p := by
    rw [Int.ceil_le]; push_cast
    calc x * 10 ^ p ≤ 1 * 10 ^ p := by
          exact mul_le_mul_of_nonneg_right h (le_of_lt hp)
      _ = 10 ^ p := one_mul _
  have h2 : rhe (x * 10 ^ p) ≤ (10 : ℤ) ^ p := le_trans (rhe_le_ceil _) h1
  unfold pyround
  rw [div_le_one hp]
  exact_mod_cast h2

theorem pyround_unit (p : ℕ) {x : ℚ} (h : InUnit x) : InUnit (pyround p x) :=
  ⟨pyround_nonneg p h.1, pyround_le_one p h.2⟩

theorem InUnit_round_min (p : ℕ) {x : ℚ} (h : 0 ≤ x) :
    InUnit (pyround p (min x 1)) :=
  pyround_unit p ⟨le_min h zero_le_one, min_le_right _ _⟩

theorem InUnit_round_max_one_sub (p : ℕ) {b : ℚ} (h : 0 ≤ b) :
    InUnit (pyround p (max (1 - b) 0)) :=
  pyround_unit p ⟨le_max_right _ _, max_le (by linarith) zero_le_one⟩

theorem pyround3_le_of_le {x b : ℚ} (h : x ≤ b) : pyround 3 x ≤ b + 1/2000 := by
  have := pyround_le_add 3 x
  norm_num at this
  linarith

theorem le_pyround3_of_le {x b : ℚ} (h : b ≤ x) : b - 1/2000 ≤ pyround 3 x := by
  have := pyround_ge_sub 3 x
  norm_num at this
  linarith

theorem pyround_zero (p : ℕ) : pyround p 0 = 0 := by
  have : (0 : ℚ) ≤ pyround p 0 := pyround_nonneg p le_rfl
  have h2 : pyround p 0 ≤ 0 + 1 / (2 * 10 ^ p) := by
    simpa using pyround_le_add p 0
  unfold pyround rhe
  norm_num [ratFloor_eq_floor]

/-! ## Lemmas about the stable descending sort -/

theorem insertDesc_perm {α β : Type} [LinearOrder β] (p : α × β)
    (l : List (α × β)) : (insertDesc p l).Perm (p :: l) := by
  induction l with
  | nil => simp [insertDesc]
  | cons q qs ih =>
      unfold insertDesc
      split_ifs with h
      · exact (ih.cons q).trans (List.Perm.swap p q qs)
      · exact List.Perm.refl _

theorem pySortDesc_perm {α β : Type} [LinearOrder β] (l : List (α × β)) :
    (pySortDesc l).Perm l := by
  induction l with
  | nil => simp [pySortDesc]
  | cons x xs ih =>
      show (insertDesc x (pySortDesc xs)).Perm (x :: xs)
      exact (insertDesc_perm x (pySortDesc xs)).trans (ih.cons x)

theorem insertDesc_sorted {α β : Type} [LinearOrder β] {p : α × β}
    {l : List (α × β)} (h : l.Pairwise (fun a b => b.2 ≤ a.2)) :
    (insertDesc p l).Pairwise (fun a b => b.2 ≤ a.2) := by
  induction l with
  | nil => simp [insertDesc]
  | cons q qs ih =>
      rw [List.pairwise_cons] at h
      obtain ⟨hq, hqs⟩ := h
      unfold insertDesc
      split_ifs with hc
      · rw [List.pairwise_cons]
        refine ⟨?_, ih hqs⟩
        intro b hb
        rcases List.mem_cons.mp ((insertDesc_perm p qs).mem_iff.mp hb) with hb' | hb'
        · rw [hb']; exact le_of_lt hc
        · exact hq b hb'
      · rw [List.pairwise_cons]
        refine ⟨?_, List.pairwise_cons.mpr ⟨hq, hqs⟩⟩
        intro b hb
        rcases List.mem_cons.mp hb with hb' | hb'
        · rw [hb']; exact le_of_not_lt hc
        · exact le_trans (hq b hb') (le_of_not_lt hc)

theorem pySortDesc_sorted {α β : Type} [LinearOrder β] (l : List (α × β)) :
    (pySortDesc l).Pairwise (fun a b => b.2 ≤ a.2) := by
  induction l with
  | nil => simp [pySortDesc]
  | cons x xs ih => exact insertDesc_sorted ih

theorem insertDesc_filter {α β : Type} [LinearOrder β] (p : α × β)
    {l : List (α × β)} (h : l.Pairwise (fun a b => b.2 ≤ a.2)) (c : β) :
    (insertDesc p l).filter (fun q => decide (q.2 = c)) =
      if p.2 = c then p :: l.filter (fun q => decide (q.2 = c))
      else l.filter (fun q => decide (q.2 = c)) := by
  induction l with
  | nil =>
      simp only [insertDesc]
      by_cases h1 : p.2 = c
      · simp [List.filter, h1]
      · simp [List.filter, h1]
  | cons q qs ih =>
      rw [List.pairwise_cons] at h
      obtain ⟨hq, hqs⟩ := h
      unfold insertDesc
      by_cases hc : p.2 < q.2
      · rw [if_pos hc]
        by_cases hqc : q.2 = c
        · -- q stays in the filter; p cannot have count c here
          have hpc : ¬(p.2 = c) := by
            intro hpc; rw [hpc, hqc] at hc; exact lt_irrefl _ hc
          rw [List.filter_cons_of_pos (by simpa using hqc), ih hqs, if_neg hpc,
            if_neg hpc, List.filter_cons_of_pos (by simpa using hqc)]
        · rw [List.filter_cons_of_neg (by simpa using hqc), ih hqs,
            List.filter_cons_of_neg (by simpa using hqc)]
      · rw [if_neg hc]
        by_cases hp2 : p.2 = c
        · rw [if_pos hp2, List.filter_cons_of_pos (by simpa using hp2)]
        · rw [if_neg hp2, List.filter_cons_of_neg (by simpa using hp2)]

theorem pySortDesc_filter {α β : Type} [LinearOrder β] (l : List (α × β))
    (c : β) :
    (pySortDesc l).filter (fun q => decide (q.2 = c)) =
      l.filter (fun q => decide (q.2 = c)) := by
  induction l with
  | nil => simp [pySortDesc]
  | cons x xs ih =>
      show (insertDesc x (pySortDesc xs)).filter _ = _
      rw [insertDesc_filter x (pySortDesc_sorted xs) c, ih]
      by_cases hx : x.2 = c
      · rw [if_pos hx, List.filter_cons_of_pos (by simpa using hx)]
      · rw [if_neg hx, List.filter_cons_of_neg (by simpa using hx)]

/-! ## Lemmas about count aggregation -/

theorem lookupD_addCount (acc : List (String × ℕ)) (k : String) (v : ℕ)
    (key : String) :
    lookupD (addCount acc k v) key 0 =
      lookupD acc key 0 + (if k = key then v else 0) := by
  induction acc with
  | nil =>
      simp only [addCount, lookupD]
      split_ifs <;> omega
  | cons hd tl ih =>
      obtain ⟨k', v'⟩ := hd
      by_cases h1 : k' = k
      · rw [show addCount ((k', v') :: tl) k v = (k', v' + v) :: tl from by
          simp [addCount, h1]]
        simp only [lookupD]
        by_cases h2 : k' = key
        · have hk : k = key := by rw [← h1]; exact h2
          rw [if_pos h2, if_pos h2, if_pos hk]
        · have hk : ¬(k = key) := by rw [← h1]; exact h2
          rw [if_neg h2, if_neg h2, if_neg hk, Nat.add_zero]
      · rw [show addCount ((k', v') :: tl) k v = (k', v') :: addCount tl k v from by
          simp [addCount, h1]]
        simp only [lookupD]
        by_cases h2 : k' = key
        · have hk : ¬(k = key) := fun hkk => h1 (h2.trans hkk.symm)
          rw [if_pos h2, if_pos h2, if_neg hk, Nat.add_zero]
        · rw [if_neg h2, if_neg h2]
          exact ih

theorem lookupD_foldl_addCount (pairs : List (String × ℕ))
    (acc : List (String × ℕ)) (key : String) :
    lookupD (pairs.foldl (fun a p => addCount a p.1 p.2) acc) key 0 =
      lookupD acc key 0 +
        ((pairs.filter (fun p => decide (p.1 = key))).map (·.2)).sum := by
  induction pairs generalizing acc with
  | nil => simp
  | cons p ps ih =>
      rw [List.foldl_cons, ih, lookupD_addCount]
      by_cases hp : p.1 = key
      · rw [List.filter_cons_of_pos (by simpa using hp), if_pos hp]
        simp; omega
      · rw [List.filter_cons_of_neg (by simpa using hp), if_neg hp]
        omega

theorem lookupD_foldl_addOne (names : List String)
    (acc : List (String × ℕ)) (key : String) :
    lookupD (names.foldl (fun a n => addCount a n 1) acc) key 0 =
      lookupD acc key 0 + (names.filter (fun n => decide (n = key))).length := by
  induction names generalizing acc with
  | nil => simp
  | cons n ns ih =>
      rw [List.foldl_cons, ih, lookupD_addCount]
      by_cases hn : n = key
      · rw [List.filter_cons_of_pos (by simpa using hn), if_pos hn]
        simp; omega
      · rw [List.filter_cons_of_neg (by simpa using hn), if_neg hn]
        omega

theorem lookupD_aggLibraryCounts (fp : FilteredProfile) (key : String) :
    lookupD (aggLibraryCounts fp) key 0 = sumLibCounts fp key := by
  unfold aggLibraryCounts sumLibCounts
  have aux : ∀ (repos : List RepoAnalysis) (acc : List (String × ℕ)),
      lookupD (repos.foldl
        (fun acc r => r.libraries.foldl (fun a p => addCount a p.1 p.2) acc)
        acc) key 0 =
      lookupD acc key 0 + ((repos.map (fun r =>
        ((r.libraries.filter (fun p => decide (p.1 = key))).map (·.2)).sum)).sum) := by
    intro repos
    induction repos with
    | nil => simp
    | cons r rs ih =>
        intro acc
        rw [List.foldl_cons, ih, lookupD_foldl_addCount]
        simp; omega
  rw [aux]
  simp [lookupD]

theorem lookupD_aggFrameworkCounts (fp : FilteredProfile) (key : String) :
    lookupD (aggFrameworkCounts fp) key 0 = sumFwOcc fp key := by
  unfold aggFrameworkCounts sumFwOcc
  have aux : ∀ (repos : List RepoAnalysis) (acc : List (String × ℕ)),
      lookupD (repos.foldl
        (fun acc r => r.frameworks.foldl (fun a fw => addCount a fw 1) acc)
        acc) key 0 =
      lookupD acc key 0 + ((repos.map (fun r =>
        (r.frameworks.filter (fun f => decide (f = key))).length)).sum) := by
    intro repos
    induction repos with
    | nil => simp
    | cons r rs ih =>
        intro acc
        rw [List.foldl_cons, ih, lookupD_foldl_addOne]
        simp; omega
  rw [aux]
  simp [lookupD]

/-! ## Inversion of the translator -/

/-- Inverting a successful run of create_translated_data into its parts. -/
theorem createTranslatedData_inv (fp : FilteredProfile) (now : String)
    (tp : TranslatedProfile) (h : createTranslatedData fp now = some tp) :
    ∃ f c a td q, frequencyOf fp = some f ∧ consistencyOf fp = some c ∧
      avgCommitSizeOf fp = some a ∧ technicalDepthOf fp = some td ∧
      qualityOf fp = some q ∧
      tp = { languages := aggLanguages fp, libraries := aggLibraries fp,
             frameworks := aggFrameworks fp,
             habits := ⟨pyround 2 f, pyround 3 c, pyround 2 a, commitPattern f⟩,
             technical_depth := td, composition := compositionOf fp,
             skills := skillsOf fp, quality := q,
             metadata := ⟨fp.repositories.length, fp.total_commits, now⟩ } := by
  unfold createTranslatedData at h
  simp only [bind, Option.bind_eq_some, pure, Option.some.injEq] at h
  obtain ⟨f, hf, c, hc, a, ha, td, htd, q, hq, htp⟩ := h
  exact ⟨f, c, a, td, q, hf, hc, ha, htd, hq, htp.symm⟩

/-! ## Claim theorems -/

/-- C1, counterexample: for the dump scenario of the claim (one repository
section holding a file `app.py` and a file `requirements.txt` containing
`flask==2.0.0`), the Analyzer's library map does NOT contain "flask":
`flask==2.0.0` matches neither the import-statement pattern nor the
quoted-name/semver pattern of detect_libraries. -/
theorem c1_flask_not_detected :
    ¬ ("flask" ∈ (detect_libraries content1.data).map Prod.fst) := by decide

/-- C1, amended: on the claim's scenario content, the Analyzer yields the
language map [("Python", 1)] (Python mapped to at least 1) and an empty
framework set, but the library map is empty, so it does not contain
"flask". -/
theorem c1_scenario_analyzer :
    detect_languages content1.data = [("Python", 1)] ∧
    detect_libraries content1.data = [] ∧
    detect_frameworks content1.data = [] := by
  refine ⟨by decide, by decide, by decide⟩

/-- C6: on a FilteredProfile with an empty repository list the Translator
returns (it does not raise: the result is `some`, never `none`) the
documented zero-valued habits, technical depth, composition and quality
structures. -/
theorem c6_empty_translator (now : String) :
    createTranslatedData ⟨[], 0, []⟩ now = some
      { languages := [], libraries := [], frameworks := []
        habits := ⟨0, 0, 0, "sporadic"⟩
        technical_depth := ⟨0, 0, 0, "beginner"⟩
        composition := ⟨0, 0, 0⟩, skills := []
        quality := ⟨0, 0, "needs_improvement"⟩
        metadata := ⟨0, 0, now⟩ } := by
  have h1 : frequencyOf ⟨[], 0, []⟩ = some 0 := by with_unfolding_all decide
  have h2 : consistencyOf ⟨[], 0, []⟩ = some 0 := by with_unfolding_all decide
  have h3 : avgCommitSizeOf ⟨[], 0, []⟩ = some 0 := by with_unfolding_all decide
  have h4 : technicalDepthOf ⟨[], 0, []⟩ = some ⟨0, 0, 0, "beginner"⟩ := by
    with_unfolding_all decide
  have h5 : qualityOf ⟨[], 0, []⟩ = some ⟨0, 0, "needs_improvement"⟩ := by
    with_unfolding_all decide
  unfold createTranslatedData
  rw [h1, h2, h3, h4, h5]
  show some _ = some _
  rw [Option.some.injEq]
  refine TranslatedProfile.mk.injEq _ _ _ _ _ _ _ _ _ _ _ _ _ _ _ _ _ _
    |>.mpr ⟨by with_unfolding_all decide, by with_unfolding_all decide,
      by with_unfolding_all decide, by with_unfolding_all decide, rfl,
      by with_unfolding_all decide, by with_unfolding_all decide, rfl, rfl⟩

/-- C8: the commit_pattern thresholds are exclusive. Exactly 5 yields
"regular" (not "daily"), exactly 2 yields "weekly" (not "regular"),
exactly 0.5 yields "sporadic" (not "weekly"); strictly above 5 yields
"daily", strictly above 2 (up to 5) yields "regular", strictly above 0.5
(up to 2) yields "weekly", and otherwise "sporadic". -/
theorem c8_commit_pattern_boundaries :
    commitPattern 5 = "regular" ∧ commitPattern 2 = "weekly" ∧
    commitPattern (1/2) = "sporadic" ∧
    (∀ f : ℚ, 5 < f → commitPattern f = "daily") ∧
    (∀ f : ℚ, 2 < f → f ≤ 5 → commitPattern f = "regular") ∧
    (∀ f : ℚ, 1/2 < f → f ≤ 2 → commitPattern f = "weekly") ∧
    (∀ f : ℚ, f ≤ 1/2 → commitPattern f = "sporadic") := by
  refine ⟨by norm_num [commitPattern], by norm_num [commitPattern],
    by norm_num [commitPattern], ?_, ?_, ?_, ?_⟩
  · intro f h
    unfold commitPattern
    rw [if_pos h]
  · intro f h1 h2
    unfold commitPattern
    rw [if_neg (by linarith), if_pos h1]
  · intro f h1 h2
    unfold commitPattern
    rw [if_neg (by linarith), if_neg (by linarith), if_pos h1]
  · intro f h1
    unfold commitPattern
    rw [if_neg (by linarith), if_neg (by linarith), if_neg (by linarith)]

/-- Per-entry rounding changes a sum of 2-decimal roundings by at most half
an ulp per entry. -/
theorem sum_map_pyround2_bound (l : List ℚ) :
    |(l.map (pyround 2)).sum - l.sum| ≤ (l.length : ℚ) / 200 := by
  induction l with
  | nil => simp
  | cons x xs ih =>
      have hx : |pyround 2 x - x| ≤ 1/200 := by
        have := pyround_abs 2 x
        norm_num at this
        exact this
      simp only [List.map_cons, List.sum_cons, List.length_cons]
      have key : pyround 2 x + (xs.map (pyround 2)).sum - (x + xs.sum)
          = (pyround 2 x - x) + ((xs.map (pyround 2)).sum - xs.sum) := by ring
      rw [key]
      calc |(pyround 2 x - x) + ((xs.map (pyround 2)).sum - xs.sum)|
          ≤ |pyround 2 x - x| + |(xs.map (pyround 2)).sum - xs.sum| :=
            abs_add _ _
        _ ≤ 1/200 + (xs.length : ℚ) / 200 := add_le_add hx ih
        _ = ((xs.length : ℚ) + 1) / 200 := by ring
        _ = ((xs.length + 1 : ℕ) : ℚ) / 200 := by push_cast; ring

/-- Summing value × constant over an association list. -/
theorem sum_map_val_mul (l : List (String × ℕ)) (k : ℚ) :
    (l.map (fun p => (p.2 : ℚ) * k)).sum = (((l.map (·.2)).sum : ℕ) : ℚ) * k := by
  induction l with
  | nil => simp
  | cons p ps ih =>
      simp only [List.map_cons, List.sum_cons, ih]
      push_cast
      ring

/-- The DeveloperProfile1 language aggregation computes the same map as the
filtering-module language aggregation. -/
theorem DP1_language_aggregation_eq (fp : FilteredProfile) :
    DP1_language_aggregation fp = aggLanguages fp := by
  simp only [DP1_language_aggregation, aggLanguages, totalLangCount,
    aggLanguageCounts]
  split_ifs <;> first | rfl | omega

/-- The pre-rounding language percentages of a nonzero total sum to 100. -/
theorem aggLanguages_pre_sum (fp : FilteredProfile)
    (h : 0 < totalLangCount fp) :
    ((aggLanguageCounts fp).map
      (fun p => (p.2 : ℚ) / (totalLangCount fp : ℚ) * 100)).sum = 100 := by
  have htot : ((totalLangCount fp : ℕ) : ℚ) ≠ 0 := by
    exact_mod_cast Nat.pos_iff_ne_zero.mp h
  have e : (fun p : String × ℕ => (p.2 : ℚ) / (totalLangCount fp : ℚ) * 100)
      = fun p : String × ℕ => (p.2 : ℚ) * (100 / (totalLangCount fp : ℚ)) := by
    funext p; ring
  rw [e, sum_map_val_mul]
  show ((totalLangCount fp : ℕ) : ℚ) * (100 / (totalLangCount fp : ℚ)) = 100
  field_simp

/-- C5: whenever the total language occurrence count is positive, the
translator's (and DeveloperProfile1's) language percentage values sum to
100 within half an ulp of the 2-decimal rounding per entry; when the total
is 0, both language maps are empty. -/
theorem c5_language_percentages (fp : FilteredProfile) (now : String)
    (tp : TranslatedProfile) (h : createTranslatedData fp now = some tp) :
    (totalLangCount fp = 0 →
      tp.languages = [] ∧ DP1_language_aggregation fp = []) ∧
    (0 < totalLangCount fp →
      |(tp.languages.map (·.2)).sum - 100| ≤ (tp.languages.length : ℚ) / 200 ∧
      |((DP1_language_aggregation fp).map (·.2)).sum - 100| ≤
        ((DP1_language_aggregation fp).length : ℚ) / 200) := by
  obtain ⟨f, c, a, td, q, -, -, -, -, -, htp⟩ :=
    createTranslatedData_inv fp now tp h
  have htl : tp.languages = aggLanguages fp := by rw [htp]
  rw [htl, DP1_language_aggregation_eq]
  constructor
  · intro h0
    unfold aggLanguages
    rw [if_neg (by omega)]
    exact ⟨rfl, rfl⟩
  · intro hpos
    have key : |((aggLanguages fp).map (·.2)).sum - 100| ≤
        (((aggLanguages fp).length : ℚ)) / 200 := by
      unfold aggLanguages
      rw [if_pos hpos]
      have e2 : (((aggLanguageCounts fp).map
          (fun p => (p.1, pyround 2 ((p.2 : ℚ) / (totalLangCount fp : ℚ) * 100)))).map
            (·.2))
          = ((aggLanguageCounts fp).map
            (fun p => (p.2 : ℚ) / (totalLangCount fp : ℚ) * 100)).map
            (pyround 2) := by
        rw [List.map_map, List.map_map]
        rfl
      rw [e2]
      have e3 := sum_map_pyround2_bound
        ((aggLanguageCounts fp).map
          (fun p => (p.2 : ℚ) / (totalLangCount fp : ℚ) * 100))
      rw [aggLanguages_pre_sum fp hpos] at e3
      simpa using e3
    exact ⟨key, key⟩

/-- C5 witness: a single repository with languages mapping Python to 3. -/
theorem c5_witness :
    createTranslatedData fp5w "t" = some tp5w ∧ 0 < totalLangCount fp5w ∧
    |(tp5w.languages.map (·.2)).sum - 100| ≤ (tp5w.languages.length : ℚ) / 200 := by
  have h : createTranslatedData fp5w "t" = some tp5w := by
    with_unfolding_all decide
  exact ⟨h, by decide,
    ((c5_language_percentages fp5w "t" tp5w h).2 (by decide)).1⟩

/-- C3, counterexample: for two commits carrying the same (nonzero)
timestamp, habits.frequency is 0 although two timestamps exist and the
claim's formula total_commits ÷ max(timespan_in_weeks, 1) equals 2: the
source guards the division with `time_span_days > 0` and falls back to 0. -/
theorem c3_counterexample :
    (createTranslatedData fp3c "t").map (fun tp => tp.habits.frequency) =
      some 0 ∧
    (timestampsOf fp3c).length = 2 ∧
    pyround 2 ((fp3c.total_commits : ℚ) /
      max ((listMaxD (timestampsOf fp3c) - listMinD (timestampsOf fp3c)) /
        604800) 1) = 2 := by
  refine ⟨by with_unfolding_all decide, by with_unfolding_all decide,
    by with_unfolding_all decide⟩

/-- C3, amended: habits.frequency is the 2-decimal rounding of
n ÷ max((max_epoch − min_epoch)/604800, 1), where n counts the commits
with nonzero timestamp, whenever n ≥ 2 AND the timestamps do not all
coincide; it is 0 when fewer than 2 such timestamps exist OR the maximal
timestamp does not exceed the minimal one. -/
theorem c3_frequency (fp : FilteredProfile) (now : String)
    (tp : TranslatedProfile) (h : createTranslatedData fp now = some tp) :
    (2 ≤ (timestampsOf fp).length →
      listMinD (timestampsOf fp) < listMaxD (timestampsOf fp) →
      tp.habits.frequency = pyround 2 (((timestampsOf fp).length : ℚ) /
        max ((listMaxD (timestampsOf fp) - listMinD (timestampsOf fp)) /
          604800) 1)) ∧
    ((timestampsOf fp).length < 2 ∨
      listMaxD (timestampsOf fp) ≤ listMinD (timestampsOf fp) →
      tp.habits.frequency = 0) := by
  obtain ⟨f, c, a, td, q, hf, -, -, -, -, htp⟩ :=
    createTranslatedData_inv fp now tp h
  have hfreq : tp.habits.frequency = pyround 2 f := by rw [htp]
  rw [hfreq]
  unfold frequencyOf at hf
  by_cases hlen : 1 < (timestampsOf fp).length
  · rw [if_pos hlen] at hf
    cases hts : timestampsOf fp with
    | nil => rw [hts] at hlen; simp at hlen
    | cons x xs =>
        rw [hts] at hf
        simp only [pymax, pymin, Option.some_bind] at hf
        have hff : f = (if 0 < ((xs.foldl max x) - (xs.foldl min x)) / 86400
            then (((x :: xs).length : ℚ)) /
              max (((xs.foldl max x) - (xs.foldl min x)) / 86400 / 7) 1
            else 0) := (Option.some.inj hf).symm
        have emx : listMaxD (x :: xs) = xs.foldl max x := rfl
        have emn : listMinD (x :: xs) = xs.foldl min x := rfl
        constructor
        · intro _ hlt
          rw [emx, emn] at hlt
          have hpos : 0 < ((xs.foldl max x) - (xs.foldl min x)) / 86400 :=
            div_pos (by linarith) (by norm_num)
          rw [hff, if_pos hpos, emx, emn]
          have e : ((xs.foldl max x) - (xs.foldl min x)) / 86400 / 7
              = ((xs.foldl max x) - (xs.foldl min x)) / 604800 := by
            rw [div_div]; norm_num
          rw [e]
        · intro hle
          rcases hle with hle | hle
          · rw [hts] at hlen
            omega
          · rw [emx, emn] at hle
            have hneg : ¬(0 < ((xs.foldl max x) - (xs.foldl min x)) / 86400) := by
              rw [not_lt]
              apply div_nonpos_of_nonpos_of_nonneg (by linarith) (by norm_num)
            rw [hff, if_neg hneg, pyround_zero]
  · rw [if_neg hlen] at hf
    have hf0 : f = 0 :=
      (Option.some.inj (by simpa using hf)).symm
    constructor
    · intro h2 _
      omega
    · intro _
      rw [hf0, pyround_zero]

/-- C3 witness: two commits 1000 seconds apart give frequency
round(2 / max(1000/604800, 1), 2) = 2. -/
theorem c3_witness :
    createTranslatedData fp3w "t" = some tp3w ∧
    2 ≤ (timestampsOf fp3w).length ∧
    listMinD (timestampsOf fp3w) < listMaxD (timestampsOf fp3w) ∧
    tp3w.habits.frequency = pyround 2 (((timestampsOf fp3w).length : ℚ) /
      max ((listMaxD (timestampsOf fp3w) - listMinD (timestampsOf fp3w)) /
        604800) 1) := by
  have h : createTranslatedData fp3w "t" = some tp3w := by
    with_unfolding_all decide
  exact ⟨h, by with_unfolding_all decide, by with_unfolding_all decide,
    (c3_frequency fp3w "t" tp3w h).1 (by with_unfolding_all decide)
      (by with_unfolding_all decide)⟩

/-- C2, counterexample: on a repository whose only library carries count 3,
DeveloperProfile1.library_aggregation (which iterates the library dict's
KEYS) produces count 1, not the summed count 3; and
DeveloperProfile1.framework_aggregation returns None rather than a map. -/
theorem c2_counterexample :
    DP1_library_aggregation fp2c = [("numpy", 1)] ∧
    sumLibCounts fp2c "numpy" = 3 ∧
    DP1_framework_aggregation fp2c = none := by
  refine ⟨by with_unfolding_all decide, by decide, rfl⟩

/-- C2, amended: the filtering-module translator's libraries map is the
per-name sum of counts across repositories, sorted descending by count
with a stable tie-break (a permutation of the first-encounter aggregation
whose equal-count slices are unchanged); its frameworks map counts each
framework's occurrences across repositories and is sorted the same way.
(DeveloperProfile1's library aggregation instead counts one per containing
repository and its framework aggregation returns no map; see the
counterexample.) -/
theorem c2_aggregation_sorted (fp : FilteredProfile) (now : String)
    (tp : TranslatedProfile) (h : createTranslatedData fp now = some tp) :
    (∀ name, lookupD (aggLibraryCounts fp) name 0 = sumLibCounts fp name) ∧
    tp.libraries.Perm (aggLibraryCounts fp) ∧
    List.Pairwise (fun a b => b.2 ≤ a.2) tp.libraries ∧
    (∀ cnt : ℕ, tp.libraries.filter (fun q => decide (q.2 = cnt)) =
      (aggLibraryCounts fp).filter (fun q => decide (q.2 = cnt))) ∧
    (∀ name, lookupD (aggFrameworkCounts fp) name 0 = sumFwOcc fp name) ∧
    tp.frameworks.Perm (aggFrameworkCounts fp) ∧
    List.Pairwise (fun a b => b.2 ≤ a.2) tp.frameworks ∧
    (∀ cnt : ℕ, tp.frameworks.filter (fun q => decide (q.2 = cnt)) =
      (aggFrameworkCounts fp).filter (fun q => decide (q.2 = cnt))) := by
  obtain ⟨f, c, a, td, q, -, -, -, -, -, htp⟩ :=
    createTranslatedData_inv fp now tp h
  have hl : tp.libraries = pySortDesc (aggLibraryCounts fp) := by rw [htp]; rfl
  have hw : tp.frameworks = pySortDesc (aggFrameworkCounts fp) := by
    rw [htp]; rfl
  rw [hl, hw]
  exact ⟨lookupD_aggLibraryCounts fp, pySortDesc_perm _, pySortDesc_sorted _,
    pySortDesc_filter _, lookupD_aggFrameworkCounts fp, pySortDesc_perm _,
    pySortDesc_sorted _, pySortDesc_filter _⟩

/-- C2 witness: two repositories with overlapping library names; the
aggregated count of "aaa" is 2 + 3 = 5 and the sorted output is
[("aaa", 5), ("bbb", 1)]. -/
theorem c2_witness :
    createTranslatedData fp2w "t" = some tp2w ∧
    lookupD (aggLibraryCounts fp2w) "aaa" 0 = sumLibCounts fp2w "aaa" ∧
    sumLibCounts fp2w "aaa" = 5 ∧
    List.Pairwise (fun a b => b.2 ≤ a.2) tp2w.libraries := by
  have h : createTranslatedData fp2w "t" = some tp2w := by
    with_unfolding_all decide
  exact ⟨h, (c2_aggregation_sorted fp2w "t" tp2w h).1 "aaa", by decide,
    (c2_aggregation_sorted fp2w "t" tp2w h).2.2.1⟩

/-- C9: determinism apart from the wall-clock timestamp. The Translator's
output on the same FilteredProfile with two different clock readings
agrees after erasing metadata.analysis_timestamp, and the Modeler's output
on two translated documents differing only in analysis_timestamp agrees
after erasing the propagated timestamp. (The parser, analyzer and builder
are embedded as plain functions of their input, so their determinism holds
by construction.) -/
theorem c9_determinism :
    (∀ (fp : FilteredProfile) (n1 n2 : String),
      (createTranslatedData fp n1).map eraseTP =
        (createTranslatedData fp n2).map eraseTP) ∧
    (∀ (m : ModelInput) (n1 n2 : String),
      erasePP (generatePredictiveProfile { m with analysis_timestamp := n1 }) =
        erasePP (generatePredictiveProfile { m with analysis_timestamp := n2 })) := by
  constructor
  · intro fp n1 n2
    unfold createTranslatedData
    cases frequencyOf fp <;> cases consistencyOf fp <;>
      cases avgCommitSizeOf fp <;> cases technicalDepthOf fp <;>
      cases qualityOf fp <;> rfl
  · intro m n1 n2
    rfl

/-- C10: predict_project_success is total over arbitrary project-type tags.
Any tag outside the eight CapabilityAssessment fields yields success
likelihood 0.5, risk "medium" and an empty per-project skill-gap list; any
tag outside the project-type → friction mapping yields friction score 0.5.
(The embedding is a total function, so no input raises.) -/
theorem c10_predict_total :
    (∀ (m : ModelInput) (t : String) (cap : CapabilityAssessment)
      (fric : FrictionProfile),
      t ∉ (["api_service", "cli_tool", "data_pipeline", "ml_model",
        "frontend_app", "fullstack_app", "infrastructure",
        "plugin_system"] : List String) →
      (predictProjectSuccess m t cap fric).success_likelihood = 1/2 ∧
      (predictProjectSuccess m t cap fric).risk_level = "medium" ∧
      (predictProjectSuccess m t cap fric).skill_gaps = []) ∧
    (∀ (m : ModelInput) (t : String) (cap : CapabilityAssessment)
      (fric : FrictionProfile),
      t ∉ (["frontend_app", "fullstack_app", "ml_model", "infrastructure",
        "cli_tool"] : List String) →
      (predictProjectSuccess m t cap fric).friction_score = 1/2) := by
  have hhalf : pyround 3 (1/2 : ℚ) = 1/2 := by with_unfolding_all decide
  constructor
  · intro m t cap fric ht
    simp only [List.mem_cons, List.not_mem_nil, or_false, not_or] at ht
    obtain ⟨h1, h2, h3, h4, h5, h6, h7, h8⟩ := ht
    have hcap : capLookup cap t = none := by
      unfold capLookup
      rw [if_neg h1, if_neg h2, if_neg h3, if_neg h4, if_neg h5, if_neg h6,
        if_neg h7, if_neg h8]
    have hgap : gapMap t = [] := by
      unfold gapMap
      rw [if_neg h5, if_neg h6, if_neg h4, if_neg h7]
    unfold predictProjectSuccess
    rw [hcap]
    refine ⟨hhalf, ?_, ?_⟩
    · show riskLevel ((Option.getD none (1/2))) = "medium"
      unfold riskLevel
      norm_num
    · show identifyProjectGaps t _ = []
      unfold identifyProjectGaps
      rw [hgap]
      rfl
  · intro m t cap fric ht
    simp only [List.mem_cons, List.not_mem_nil, or_false, not_or] at ht
    obtain ⟨h1, h2, h3, h4, h5⟩ := ht
    have hfm : frictionMapField t = "" := by
      unfold frictionMapField
      rw [if_neg h1, if_neg h2, if_neg h3, if_neg h4, if_neg h5]
    have hfl : fricLookup fric "" = none := by
      unfold fricLookup
      rw [if_neg (by decide), if_neg (by decide), if_neg (by decide),
        if_neg (by decide), if_neg (by decide), if_neg (by decide),
        if_neg (by decide), if_neg (by decide), if_neg (by decide)]
    unfold predictProjectSuccess
    rw [hfm, hfl]
    exact hhalf

/-- C10 witness: the unknown project type "mobile_app" on the all-zero
profiles. -/
theorem c10_witness :
    (predictProjectSuccess m0 "mobile_app" cap0 fric0).success_likelihood
      = 1/2 ∧
    (predictProjectSuccess m0 "mobile_app" cap0 fric0).risk_level
      = "medium" ∧
    (predictProjectSuccess m0 "mobile_app" cap0 fric0).skill_gaps = [] ∧
    (predictProjectSuccess m0 "mobile_app" cap0 fric0).friction_score
      = 1/2 := by
  obtain ⟨ha, hb, hc⟩ := c10_predict_total.1 m0 "mobile_app" cap0 fric0
    (by decide)
  exact ⟨ha, hb, hc, c10_predict_total.2 m0 "mobile_app" cap0 fric0
    (by decide)⟩

/-- A predicate holding on every value of an association list and on the
default holds on any lookup. -/
theorem lookupD_pred {P : ℚ → Prop} (l : List (String × ℚ)) (k : String)
    (d : ℚ) (h : ∀ p ∈ l, P p.2) (hd : P d) : P (lookupD l k d) := by
  induction l with
  | nil => exact hd
  | cons q qs ih =>
      unfold lookupD
      split_ifs with hk
      · exact h q (List.mem_cons_self q qs)
      · exact ih (fun p hp => h p (List.mem_cons_of_mem q hp))

/-- All six skill-vector dimensions lie in [0,1] on valid input. -/
theorem svUnit (m : ModelInput) (h : ValidModelInput m) :
    InUnit (computeSkillVector m).backend ∧
    InUnit (computeSkillVector m).frontend ∧
    InUnit (computeSkillVector m).data ∧
    InUnit (computeSkillVector m).ai_ml ∧
    InUnit (computeSkillVector m).cloud_infrastructure ∧
    InUnit (computeSkillVector m).architecture := by
  obtain ⟨hl, hs, hcf, hcb, hcd, hsum, hq, hd, ha⟩ := h
  have hlang : ∀ name, 0 ≤ lookupD m.languages name 0 ∧
      lookupD m.languages name 0 ≤ 100 :=
    fun name => lookupD_pred (P := fun x => 0 ≤ x ∧ x ≤ 100)
      m.languages name 0 hl ⟨le_rfl, by norm_num⟩
  have hsk : ∀ name, 0 ≤ lookupD m.skills name 0 ∧
      lookupD m.skills name 0 ≤ 1 :=
    fun name => lookupD_pred (P := fun x => 0 ≤ x ∧ x ≤ 1)
      m.skills name 0 hs ⟨le_rfl, by norm_num⟩
  simp only [computeSkillVector]
  refine ⟨InUnit_round_min 3 ?_, InUnit_round_min 3 ?_, InUnit_round_min 3 ?_,
    InUnit_round_min 3 ?_, pyround_unit 3 ⟨(hsk _).1, (hsk _).2⟩,
    InUnit_round_min 3 ?_⟩
  · linarith [hcb.1, hq.1, (hlang "Python").1]
  · linarith [hcf.1, (hlang "JavaScript").1, (hlang "TypeScript").1,
      (hlang "HTML").1, (hlang "CSS").1]
  · linarith [hcd.1, (hsk "data_engineering").1]
  · split_ifs <;> linarith [(hsk "ai_ml").1]
  · have hmin : 0 ≤ min (m.avg_repo_size / 2000) 1 :=
      le_min (div_nonneg ha (by norm_num)) zero_le_one
    linarith [hd.1, hq.1, hmin]

/-- All four code-style dimensions lie in [0,1] on valid input. -/
theorem csUnit (m : ModelInput) (h : ValidModelInput m) :
    InUnit (computeCodeStyleProfile m).type_safety_preference ∧
    InUnit (computeCodeStyleProfile m).functional_vs_oop ∧
    InUnit (computeCodeStyleProfile m).language_diversity ∧
    InUnit (computeCodeStyleProfile m).complexity_tolerance := by
  obtain ⟨hl, hs, hcf, hcb, hcd, hsum, hq, hd, ha⟩ := h
  have hts := lookupD_pred (P := fun x => 0 ≤ x ∧ x ≤ 100)
    m.languages "TypeScript" 0 hl ⟨le_rfl, by norm_num⟩
  simp only [computeCodeStyleProfile]
  refine ⟨InUnit_round_min 3 ?_, ?_, InUnit_round_min 3 ?_,
    pyround_unit 3 hd⟩
  · split_ifs <;> linarith [hts.1]
  · split_ifs <;> exact pyround_unit 3 ⟨by norm_num, by norm_num⟩
  · positivity

/-- The internal devtools score lies in [0,1] on valid input. -/
theorem devtoolsUnit (m : ModelInput) (h : ValidModelInput m) :
    InUnit (inferDevtoolsSkill m) := by
  obtain ⟨-, -, -, -, -, -, hq, -, -⟩ := h
  simp only [inferDevtoolsSkill]
  apply pyround_unit
  have a1 : 0 ≤ min ((countLibsIn m ["argparse", "click", "typer", "rich",
      "colorama"] : ℚ) / 2) 1 ∧ min ((countLibsIn m ["argparse", "click",
      "typer", "rich", "colorama"] : ℚ) / 2) 1 ≤ 1 :=
    ⟨le_min (by positivity) zero_le_one, min_le_right _ _⟩
  have a2 : 0 ≤ min ((countLibsIn m ["functools", "itertools", "collections",
      "heapq", "lru_cache", "cache", "deque"] : ℚ) / 4) 1 ∧
      min ((countLibsIn m ["functools", "itertools", "collections", "heapq",
      "lru_cache", "cache", "deque"] : ℚ) / 4) 1 ≤ 1 :=
    ⟨le_min (by positivity) zero_le_one, min_le_right _ _⟩
  have a3 : 0 ≤ min ((countLibsIn m ["pytest", "unittest", "mock"] : ℚ) / 2) 1 ∧
      min ((countLibsIn m ["pytest", "unittest", "mock"] : ℚ) / 2) 1 ≤ 1 :=
    ⟨le_min (by positivity) zero_le_one, min_le_right _ _⟩
  constructor
  · linarith [a1.1, a2.1, a3.1, hq.1]
  · linarith [a1.2, a2.2, a3.2, hq.2]

/-- All nine friction scores lie in [0,1] on valid input. -/
theorem fricUnit (m : ModelInput) (h : ValidModelInput m) :
    InUnit (computeFrictionProfile m (computeSkillVector m)
      (computeCodeStyleProfile m)).react_friction ∧
    InUnit (computeFrictionProfile m (computeSkillVector m)
      (computeCodeStyleProfile m)).vue_friction ∧
    InUnit (computeFrictionProfile m (computeSkillVector m)
      (computeCodeStyleProfile m)).typescript_friction ∧
    InUnit (computeFrictionProfile m (computeSkillVector m)
      (computeCodeStyleProfile m)).python_typing_friction ∧
    InUnit (computeFrictionProfile m (computeSkillVector m)
      (computeCodeStyleProfile m)).ml_project_friction ∧
    InUnit (computeFrictionProfile m (computeSkillVector m)
      (computeCodeStyleProfile m)).devops_friction ∧
    InUnit (computeFrictionProfile m (computeSkillVector m)
      (computeCodeStyleProfile m)).microservices_friction ∧
    InUnit (computeFrictionProfile m (computeSkillVector m)
      (computeCodeStyleProfile m)).fullstack_friction ∧
    InUnit (computeFrictionProfile m (computeSkillVector m)
      (computeCodeStyleProfile m)).mobile_friction := by
  obtain ⟨hb, hf, hd2, hai, hcl, har⟩ := svUnit m h
  obtain ⟨ht, hfo, hld, hct⟩ := csUnit m h
  obtain ⟨-, -, -, -, -, -, hq, -, -⟩ := h
  simp only [computeFrictionProfile]
  refine ⟨InUnit_round_max_one_sub 3 ?_, InUnit_round_max_one_sub 3 ?_,
    InUnit_round_max_one_sub 3 ?_, InUnit_round_max_one_sub 3 ?_,
    InUnit_round_max_one_sub 3 ?_, InUnit_round_max_one_sub 3 ?_,
    InUnit_round_max_one_sub 3 ?_, InUnit_round_max_one_sub 3 ?_,
    InUnit_round_max_one_sub 3 ?_⟩
  · linarith [hf.1, ht.1, hct.1]
  · linarith [hf.1, hld.1]
  · linarith [ht.1, hf.1, hct.1]
  · linarith [ht.1, hb.1]
  · linarith [hai.1, hd2.1, hb.1, hq.1]
  · linarith [hcl.1, hb.1]
  · linarith [har.1, hb.1, hcl.1]
  · linarith [hf.1, hb.1, har.1]
  · linarith [hf.1, hld.1, har.1]

/-- All eight capability scores lie in [0,1] on valid input. -/
theorem capUnit (m : ModelInput) (h : ValidModelInput m) :
    InUnit (computeCapabilityAssessment m (computeSkillVector m)
      (computeCodeStyleProfile m)).api_service ∧
    InUnit (computeCapabilityAssessment m (computeSkillVector m)
      (computeCodeStyleProfile m)).cli_tool ∧
    InUnit (computeCapabilityAssessment m (computeSkillVector m)
      (computeCodeStyleProfile m)).data_pipeline ∧
    InUnit (computeCapabilityAssessment m (computeSkillVector m)
      (computeCodeStyleProfile m)).ml_model ∧
    InUnit (computeCapabilityAssessment m (computeSkillVector m)
      (computeCodeStyleProfile m)).frontend_app ∧
    InUnit (computeCapabilityAssessment m (computeSkillVector m)
      (computeCodeStyleProfile m)).fullstack_app ∧
    InUnit (computeCapabilityAssessment m (computeSkillVector m)
      (computeCodeStyleProfile m)).infrastructure ∧
    InUnit (computeCapabilityAssessment m (computeSkillVector m)
      (computeCodeStyleProfile m)).plugin_system := by
  obtain ⟨hb, hf, hd2, hai, hcl, har⟩ := svUnit m h
  have hdev := devtoolsUnit m h
  obtain ⟨-, -, -, -, -, -, hq, -, -⟩ := h
  simp only [computeCapabilityAssessment]
  refine ⟨InUnit_round_min 3 ?_, InUnit_round_min 3 ?_, InUnit_round_min 3 ?_,
    InUnit_round_min 3 ?_, InUnit_round_min 3 ?_, InUnit_round_min 3 ?_,
    InUnit_round_min 3 ?_, InUnit_round_min 3 ?_⟩
  · linarith [hb.1, har.1, hq.1]
  · linarith [hb.1, hdev.1, hq.1]
  · linarith [hd2.1, hb.1, har.1]
  · linarith [hai.1, hd2.1, hq.1]
  · linarith [hf.1, hq.1]
  · linarith [hf.1, hb.1, har.1]
  · linarith [hcl.1, hb.1, har.1]
  · linarith [hb.1, har.1, hdev.1]

/-- C4: on every valid TranslatedProfile input, every score of the Modeler's
SkillVector, CodeStyleProfile, FrictionProfile and CapabilityAssessment
lies within [0,1]. -/
theorem c4_scores_unit (m : ModelInput) (h : ValidModelInput m) :
    (InUnit (computeSkillVector m).backend ∧
     InUnit (computeSkillVector m).frontend ∧
     InUnit (computeSkillVector m).data ∧
     InUnit (computeSkillVector m).ai_ml ∧
     InUnit (computeSkillVector m).cloud_infrastructure ∧
     InUnit (computeSkillVector m).architecture) ∧
    (InUnit (computeCodeStyleProfile m).type_safety_preference ∧
     InUnit (computeCodeStyleProfile m).functional_vs_oop ∧
     InUnit (computeCodeStyleProfile m).language_diversity ∧
     InUnit (computeCodeStyleProfile m).complexity_tolerance) ∧
    (InUnit (computeFrictionProfile m (computeSkillVector m)
       (computeCodeStyleProfile m)).react_friction ∧
     InUnit (computeFrictionProfile m (computeSkillVector m)
       (computeCodeStyleProfile m)).vue_friction ∧
     InUnit (computeFrictionProfile m (computeSkillVector m)
       (computeCodeStyleProfile m)).typescript_friction ∧
     InUnit (computeFrictionProfile m (computeSkillVector m)
       (computeCodeStyleProfile m)).python_typing_friction ∧
     InUnit (computeFrictionProfile m (computeSkillVector m)
       (computeCodeStyleProfile m)).ml_project_friction ∧
     InUnit (computeFrictionProfile m (computeSkillVector m)
       (computeCodeStyleProfile m)).devops_friction ∧
     InUnit (computeFrictionProfile m (computeSkillVector m)
       (computeCodeStyleProfile m)).microservices_friction ∧
     InUnit (computeFrictionProfile m (computeSkillVector m)
       (computeCodeStyleProfile m)).fullstack_friction ∧
     InUnit (computeFrictionProfile m (computeSkillVector m)
       (computeCodeStyleProfile m)).mobile_friction) ∧
    (InUnit (computeCapabilityAssessment m (computeSkillVector m)
       (computeCodeStyleProfile m)).api_service ∧
     InUnit (computeCapabilityAssessment m (computeSkillVector m)
       (computeCodeStyleProfile m)).cli_tool ∧
     InUnit (computeCapabilityAssessment m (computeSkillVector m)
       (computeCodeStyleProfile m)).data_pipeline ∧
     InUnit (computeCapabilityAssessment m (computeSkillVector m)
       (computeCodeStyleProfile m)).ml_model ∧
     InUnit (computeCapabilityAssessment m (computeSkillVector m)
       (computeCodeStyleProfile m)).frontend_app ∧
     InUnit (computeCapabilityAssessment m (computeSkillVector m)
       (computeCodeStyleProfile m)).fullstack_app ∧
     InUnit (computeCapabilityAssessment m (computeSkillVector m)
       (computeCodeStyleProfile m)).infrastructure ∧
     InUnit (computeCapabilityAssessment m (computeSkillVector m)
       (computeCodeStyleProfile m)).plugin_system) :=
  ⟨svUnit m h, csUnit m h, fricUnit m h, capUnit m h⟩

/-- C4 witness: the all-zero translated document is valid, and its backend
skill score lies in [0,1]. -/
theorem c4_witness :
    ValidModelInput m0 ∧ InUnit (computeSkillVector m0).backend := by
  have hv : ValidModelInput m0 := by
    refine ⟨by simp [m0], by simp [m0], ?_, ?_, ?_, ?_, ?_, ?_, ?_⟩ <;>
      simp [m0, InUnit]
  exact ⟨hv, (c4_scores_unit m0 hv).1.1⟩

/-- C7: with quality_score 0.8, backend composition 0.9 and no ai_ml skill,
the capability assessment ranks ml_model strictly below api_service. -/
theorem c7_ml_lt_api (m : ModelInput) (h : ValidModelInput m)
    (hq : m.quality_score = 8/10) (hb : m.composition.backend = 9/10)
    (hai : lookupD m.skills "ai_ml" 0 = 0) :
    (computeCapabilityAssessment m (computeSkillVector m)
      (computeCodeStyleProfile m)).ml_model <
    (computeCapabilityAssessment m (computeSkillVector m)
      (computeCodeStyleProfile m)).api_service := by
  obtain ⟨hl, hs, hcf, hcb, hcd, hsum, hqu, hd, ha⟩ := h
  have hpy := lookupD_pred (P := fun x => 0 ≤ x ∧ x ≤ 100)
    m.languages "Python" 0 hl ⟨le_rfl, by norm_num⟩
  have hde := lookupD_pred (P := fun x => 0 ≤ x ∧ x ≤ 1)
    m.skills "data_engineering" 0 hs ⟨le_rfl, by norm_num⟩
  have hback : 61/100 - 1/2000 ≤ (computeSkillVector m).backend := by
    simp only [computeSkillVector]
    apply le_pyround3_of_le
    apply le_min
    · rw [hb, hq]
      linarith [hpy.1]
    · norm_num
  have harch : 0 ≤ (computeSkillVector m).architecture := by
    simp only [computeSkillVector]
    apply pyround_nonneg
    apply le_min _ zero_le_one
    have hmin : 0 ≤ min (m.avg_repo_size / 2000) 1 :=
      le_min (div_nonneg ha (by norm_num)) zero_le_one
    linarith [hd.1, hqu.1, hmin]
  have hml_ai : (computeSkillVector m).ai_ml ≤ 2/10 + 1/2000 := by
    simp only [computeSkillVector]
    apply pyround3_le_of_le
    apply le_trans (min_le_left _ _)
    rw [hai]
    split_ifs <;> norm_num
  have hdata : (computeSkillVector m).data ≤ 11/20 + 1/2000 := by
    simp only [computeSkillVector]
    apply pyround3_le_of_le
    apply le_trans (min_le_left _ _)
    rw [hb] at hsum
    linarith [hde.2, hcf.1, hsum]
  simp only [computeCapabilityAssessment]
  rw [hq]
  have h1 : pyround 3 (min ((computeSkillVector m).ai_ml * (5/10)
      + (computeSkillVector m).data * (3/10) + (8/10) * (2/10)) 1)
      ≤ 4254/10000 + 1/2000 := by
    apply pyround3_le_of_le
    apply le_trans (min_le_left _ _)
    linarith [hml_ai, hdata]
  have h2 : 46475/100000 - 1/2000 ≤ pyround 3
      (min ((computeSkillVector m).backend * (5/10)
        + (computeSkillVector m).architecture * (3/10) + (8/10) * (2/10)) 1) := by
    apply le_pyround3_of_le
    apply le_min
    · linarith [hback, harch]
    · norm_num
  linarith [h1, h2]

/-- C7 witness: the concrete profile m7 (quality 0.8, backend composition
0.9, empty skills map) ranks ml_model strictly below api_service. -/
theorem c7_witness :
    (computeCapabilityAssessment m7 (computeSkillVector m7)
      (computeCodeStyleProfile m7)).ml_model <
    (computeCapabilityAssessment m7 (computeSkillVector m7)
      (computeCodeStyleProfile m7)).api_service := by
  have hv : ValidModelInput m7 := by
    refine ⟨by simp [m7], by simp [m7], ?_, ?_, ?_, ?_, ?_, ?_, ?_⟩ <;>
      norm_num [m7, InUnit]
  exact c7_ml_lt_api m7 hv rfl rfl rfl

/-- C8 witness: the four branches at concrete frequencies 6, 3, 1 and 1/4. -/
theorem c8_witness :
    commitPattern 6 = "daily" ∧ commitPattern 3 = "regular" ∧
    commitPattern 1 = "weekly" ∧ commitPattern (1/4) = "sporadic" :=
  ⟨c8_commit_pattern_boundaries.2.2.2.1 6 (by norm_num),
   c8_commit_pattern_boundaries.2.2.2.2.1 3 (by norm_num) (by norm_num),
   c8_commit_pattern_boundaries.2.2.2.2.2.1 1 (by norm_num) (by norm_num),
   c8_commit_pattern_boundaries.2.2.2.2.2.2 (1/4) (by norm_num)⟩

end Divergence
